import Mathlib

/-!
Configuration loader of `internal/bootstrap/env.go`

A shallow embedding of `NewEnv`, `getEnv` and `getEnvAsInt`, together with the
library routines they call (`os.LookupEnv`, `strconv.Atoi`, `godotenv.Load`),
which are not part of the repository and are modelled after their documented
behaviour.

Conventions of the embedding:

* A Go `string` is a Lean `String`.  A loop over the bytes of a string is a
  loop over its characters: a character outside ASCII is encoded by bytes
  that are all `≥ 0x80`, and no branch of `strconv` accepts such a byte, so a
  character that is no ASCII digit, sign or letter is rejected exactly where
  its first byte would be.  `len(s)` is `String.utf8ByteSize`.  Byte strings
  that are not valid UTF-8 are outside the model.
* Go's `int` is 64 bits wide (`strconv.IntSize = 64`); values are `Int`, with
  the wrap-around of machine arithmetic written out (`wrap64`, `% 2 ^ 64`).
* A Go result `(T, error)` is a pair whose second component is an `Option`:
  `none` is the `nil` error.  `(*Env, error)` is `Option Env × Option GoError`.
* The process environment, as `os.LookupEnv` sees it, is a lookup function
  `Environ`; `none` means the variable is not set.
-/

namespace Bootstrap

/-! ## Errors -/

/-- The two sentinel errors of `strconv`: `ErrSyntax` and `ErrRange`. -/
inductive NumErrKind where
  | ErrSyntax
  | ErrRange
  deriving DecidableEq

/-- Go's `strconv.NumError`: the failing function, the input and the reason. -/
structure NumError where
  Func : String
  Num : String
  Err : NumErrKind
  deriving DecidableEq

/-- The values of Go's `error` interface that `NewEnv` can return: a
`*strconv.NumError`, or the `*errors.errorString` built by `errors.New`. -/
inductive GoError where
  | numError (e : NumError)
  | errorString (s : String)
  deriving DecidableEq

/-- Go's `strconv.syntaxError`. -/
def syntaxError (fn str : String) : NumError := ⟨fn, str, NumErrKind.ErrSyntax⟩

/-- Go's `strconv.rangeError`. -/
def rangeError (fn str : String) : NumError := ⟨fn, str, NumErrKind.ErrRange⟩

/-! ## `strconv.Atoi` (Go standard library, 64-bit `int`) -/

/-- Width of Go's `int` (`strconv.IntSize`). -/
def intSize : Nat := 64

/-- The largest `uint64`. -/
def maxUint64 : Nat := 2 ^ 64 - 1

/-- Two's-complement wrap-around of an integer into the `int64` range. -/
def wrap64 (z : Int) : Int := (z + 2 ^ 63) % 2 ^ 64 - 2 ^ 63

/-- Go's conversion `int64(u)` of a `uint64`. -/
def toInt64 (u : Nat) : Int := wrap64 (u : Int)

/-- The byte test `'0' <= c && c <= '9'`. -/
def isDigitByte (c : Char) : Bool := decide (48 ≤ c.toNat ∧ c.toNat ≤ 57)

/-- The byte test `'a' <= lower(c) && lower(c) <= 'z'` of `strconv.ParseUint`,
where `lower(c) = c | ('x' - 'X')`. -/
def isLetterByte (c : Char) : Bool :=
  decide (c.toNat < 128 ∧ 97 ≤ (c.toNat ||| 32) ∧ (c.toNat ||| 32) ≤ 122)

/-- Modelled from the spec: the digit loop of Go's `strconv.ParseUint` (not
under `src/`) for `base = 10`, `bitSize = 64`: `n` is the `uint64` accumulated
so far, `s0` the string reported in errors. -/
def ParseUint.loop (s0 : String) : List Char → Nat → Nat × Option NumError
  | [], n => (n, none)
  | c :: cs, n =>
    -- switch: digit, letter, or anything else ('_' is special only for base 0)
    let d? : Option Nat :=
      if isDigitByte c then some (c.toNat - 48)
      else if isLetterByte c then some ((c.toNat ||| 32) - 97 + 10)
      else none
    match d? with
    | none => (0, some (syntaxError "ParseUint" s0))
    | some d =>
      if d ≥ 10 then (0, some (syntaxError "ParseUint" s0))
      else if n ≥ maxUint64 / 10 + 1 then
        -- n*base overflows
        (maxUint64, some (rangeError "ParseUint" s0))
      else
        let n10 := (n * 10) % 2 ^ 64
        let n1 := (n10 + d) % 2 ^ 64
        if n1 < n10 ∨ n1 > maxUint64 then
          -- n+d overflows
          (maxUint64, some (rangeError "ParseUint" s0))
        else ParseUint.loop s0 cs n1

/-- Modelled from the spec: Go's `strconv.ParseUint(s, 10, 0)`, the
standard-library routine behind `Atoi` (not under `src/`). -/
def ParseUint (s : String) : Nat × Option NumError :=
  if s.data = [] then (0, some (syntaxError "ParseUint" s))
  else ParseUint.loop s s.data 0

/-- Modelled from the spec: Go's `strconv.ParseInt(s, 10, 0)`, the
standard-library routine behind `Atoi` (not under `src/`): it picks off the
sign, converts the rest with `ParseUint` and checks the signed range. -/
def ParseInt (s : String) : Int × Option NumError :=
  if s.data = [] then (0, some (syntaxError "ParseInt" s))
  else
    let s0 := s
    -- pick off leading sign
    let signed : Bool × String :=
      match s.data with
      | c :: cs =>
        if c = '+' then (false, String.mk cs)
        else if c = '-' then (true, String.mk cs)
        else (false, s)
      | [] => (false, s)
    let neg := signed.1
    -- convert unsigned and check range
    let r := ParseUint signed.2
    let un := r.1
    match r.2 with
    | some ⟨_, _, NumErrKind.ErrSyntax⟩ => (0, some ⟨"ParseInt", s0, NumErrKind.ErrSyntax⟩)
    | _ =>
      let cutoff : Nat := 2 ^ (intSize - 1)
      if !neg && decide (un ≥ cutoff) then
        (toInt64 (cutoff - 1), some (rangeError "ParseInt" s0))
      else if neg && decide (un > cutoff) then
        (wrap64 (-toInt64 cutoff), some (rangeError "ParseInt" s0))
      else
        let n := toInt64 un
        (if neg then wrap64 (-n) else n, none)

/-- Modelled from the spec: the digit loop of the fast path of Go's
`strconv.Atoi` (not under `src/`): `ch -= '0'` on a byte, then `ch > 9`
rejects, else `n = n*10 + int(ch)` in `int` arithmetic. -/
def Atoi.loop (s0 : String) : List Char → Int → Int × Option NumError
  | [], n => (n, none)
  | ch :: cs, n =>
    if isDigitByte ch then Atoi.loop s0 cs (wrap64 (n * 10 + ((ch.toNat - 48 : Nat) : Int)))
    else (0, some (syntaxError "Atoi" s0))

/-- Modelled from the spec: the spec's "parsing to integer" of a variable that
is "a valid base-10 integer" is Go's `strconv.Atoi`, standard-library code
that is not under `src/`.  The definition follows the library's algorithm on a
platform where `int` has 64 bits: a fast path for strings of fewer than 19
bytes, and `ParseInt(s, 10, 0)` with the error's `Func` renamed otherwise. -/
def Atoi (s : String) : Int × Option GoError :=
  let sLen := s.utf8ByteSize
  if intSize = 64 ∧ 0 < sLen ∧ sLen < 19 then
    -- fast path for small integers that fit int type
    let s0 := s
    match s.data with
    | [] => (0, some (GoError.numError (syntaxError "Atoi" s0)))
    | c0 :: cs =>
      let signed := decide (c0 = '-' ∨ c0 = '+')
      let body := if signed then cs else c0 :: cs
      if signed ∧ body = [] then (0, some (GoError.numError (syntaxError "Atoi" s0)))
      else
        match Atoi.loop s0 body 0 with
        | (_, some e) => (0, some (GoError.numError e))
        | (n, none) => (if c0 = '-' then wrap64 (-n) else n, none)
  else
    -- slow path for invalid, big, or underscored integers
    let r := ParseInt s
    match r.2 with
    | some nerr => (r.1, some (GoError.numError { nerr with Func := "Atoi" }))
    | none => (r.1, none)

/-! ## The environment and the two readers -/

/-- The process environment as seen by `os.LookupEnv`. -/
abbrev Environ := String → Option String

/-- Go's `getEnv(key, fallback)`. -/
def getEnv (os : Environ) (key fallback : String) : String :=
  match os key with
  | some v => v
  | none => fallback

/-- Go's `getEnvAsInt(key, fallback)`. -/
def getEnvAsInt (os : Environ) (key : String) (fallback : Int) : Int × Option GoError :=
  match os key with
  | some v =>
    match Atoi v with
    | (_, some err) => (0, some err)
    | (i, none) => (i, none)
  | none => (fallback, none)

/-! ## The configuration record and `NewEnv` -/

/-- Go's `Env`: holds all configuration. -/
structure Env where
  Port : String
  AppEnv : String
  DB_Uri : String
  DB_Name : String
  RTS : String
  ATS : String
  RefTEHours : Int
  AccTEMinutes : Int
  CtxTSeconds : Int
  Page : Int
  PageSize : Int
  Recency : String
  UserCollection : String
  RefreshTokenCollection : String
  PasswordResetCollection : String
  PasswordResetExpiry : Int
  SMTPHost : String
  SMTPPort : Int
  SMTPFrom : String
  SMTPUsername : String
  SMTPPassword : String
  ResetURL : String
  GeminiAPIKey : String
  GeminiModelName : String
  ImageKitPrivateKey : String
  ImageKitPublicKey : String
  ImageKitEndpoint : String
  SecretSalt : String
  OtpCollection : String
  OtpExpireMinutes : Int
  OtpMaximumAttempts : Int
  RedisHost : String
  RedisPort : Int
  RedisPassword : String
  RedisDB : Int
  CacheExpirationSeconds : Int
  GoogleClientID : String
  GoogleClientSecret : String
  GoogleRedirectURL : String
  deriving DecidableEq

/-- The error built by `errors.New` when the data-store URI is empty. -/
def missingDbUri : GoError :=
  GoError.errorString "DB_URI is required but empty; set it in .env or environment"

/-- Go's `NewEnv`, from `env := &Env{}` on, as a function of the process
environment `os` that the lookups see (the environment after the preceding
`godotenv.Load()`).  An early `return nil, err` is the pair `(none, some err)`.
The `log.Println` in development mode writes to standard error and has no
influence on the returned values; it is left out. -/
def NewEnv (os : Environ) : Option Env × Option GoError :=
  let Port := getEnv os "PORT" ":8080"
  let AppEnv := getEnv os "APP_ENV" "development"
  let DB_Uri := getEnv os "DB_URI" ""
  let DB_Name := getEnv os "DB_NAME" ""
  let RTS := getEnv os "REFRESH_TOKEN_SECRET" ""
  let ATS := getEnv os "ACCESS_TOKEN_SECRET" ""
  match getEnvAsInt os "REFRESH_TOKEN_EXPIRE_HOURS" (24 * 7) with
  | (_, some err) => (none, some err)
  | (RefTEHours, none) =>
  match getEnvAsInt os "ACCESS_TOKEN_EXPIRE_MINUTES" 15 with
  | (_, some err) => (none, some err)
  | (AccTEMinutes, none) =>
  match getEnvAsInt os "CONTEXT_TIMEOUT_SECONDS" 10 with
  | (_, some err) => (none, some err)
  | (CtxTSeconds, none) =>
  match getEnvAsInt os "PAGE" 1 with
  | (_, some err) => (none, some err)
  | (Page, none) =>
  match getEnvAsInt os "PAGE_SIZE" 10 with
  | (_, some err) => (none, some err)
  | (PageSize, none) =>
  let Recency := getEnv os "RECENCY" "new"
  let UserCollection := getEnv os "USER_COLLECTION" "users"
  let RefreshTokenCollection := getEnv os "REFRESH_TOKEN_COLLECTION" "refresh_tokens"
  let PasswordResetCollection := getEnv os "PASSWORD_RESET_TOKEN_COLLECTION" "password_resets"
  match getEnvAsInt os "PASSWORD_RESET_TOKEN_EXPIRE_MINUTES" 15 with
  | (_, some err) => (none, some err)
  | (PasswordResetExpiry, none) =>
  let SMTPHost := getEnv os "SMTP_HOST" "smtp.gmail.com"
  match getEnvAsInt os "SMTP_PORT" 587 with
  | (_, some err) => (none, some err)
  | (SMTPPort, none) =>
  let SMTPFrom := getEnv os "SMTP_FROM" ""
  let SMTPUsername := getEnv os "SMTP_USERNAME" ""
  let SMTPPassword := getEnv os "SMTP_PASSWORD" ""
  let ResetURL := getEnv os "RESET_URL" "http://localhost:3000/reset-password"
  let GeminiAPIKey := getEnv os "GEMINI_API_KEY" ""
  let GeminiModelName := getEnv os "GEMINI_MODEL_NAME" "gemini-2.0-flash"
  let ImageKitPrivateKey := getEnv os "IMAGEKIT_PRIVATE_KEY" ""
  let ImageKitPublicKey := getEnv os "IMAGEKIT_PUBLIC_KEY" ""
  let ImageKitEndpoint := getEnv os "IMAGEKIT_URL_ENDPOINT" ""
  let SecretSalt := getEnv os "MY_SUPER_SECRET_SALT" ""
  let OtpCollection := getEnv os "OTP_COLLECTION" "otps"
  match getEnvAsInt os "OTP_EXPIRE_MINUTES" 5 with
  | (_, some err) => (none, some err)
  | (OtpExpireMinutes, none) =>
  match getEnvAsInt os "OTP_MAXIMUM_ATTEMPTS" 3 with
  | (_, some err) => (none, some err)
  | (OtpMaximumAttempts, none) =>
  let RedisHost := getEnv os "REDIS_HOST" "localhost"
  match getEnvAsInt os "REDIS_PORT" 6379 with
  | (_, some err) => (none, some err)
  | (RedisPort, none) =>
  let RedisPassword := getEnv os "REDIS_PASSWORD" ""
  match getEnvAsInt os "REDIS_DB" 0 with
  | (_, some err) => (none, some err)
  | (RedisDB, none) =>
  match getEnvAsInt os "CACHE_EXPIRATION_SECONDS" 3600 with
  | (_, some err) => (none, some err)
  | (CacheExpirationSeconds, none) =>
  let GoogleClientID := getEnv os "GOOGLE_CLIENT_ID" ""
  let GoogleClientSecret := getEnv os "GOOGLE_CLIENT_SECRET" ""
  let GoogleRedirectURL := getEnv os "GOOGLE_REDIRECT_URL" ""
  if DB_Uri = "" then (none, some missingDbUri)
  else
    (some
      { Port := Port, AppEnv := AppEnv, DB_Uri := DB_Uri, DB_Name := DB_Name, RTS := RTS,
        ATS := ATS, RefTEHours := RefTEHours, AccTEMinutes := AccTEMinutes,
        CtxTSeconds := CtxTSeconds, Page := Page, PageSize := PageSize, Recency := Recency,
        UserCollection := UserCollection, RefreshTokenCollection := RefreshTokenCollection,
        PasswordResetCollection := PasswordResetCollection,
        PasswordResetExpiry := PasswordResetExpiry, SMTPHost := SMTPHost,
        SMTPPort := SMTPPort, SMTPFrom := SMTPFrom, SMTPUsername := SMTPUsername,
        SMTPPassword := SMTPPassword, ResetURL := ResetURL, GeminiAPIKey := GeminiAPIKey,
        GeminiModelName := GeminiModelName, ImageKitPrivateKey := ImageKitPrivateKey,
        ImageKitPublicKey := ImageKitPublicKey, ImageKitEndpoint := ImageKitEndpoint,
        SecretSalt := SecretSalt, OtpCollection := OtpCollection,
        OtpExpireMinutes := OtpExpireMinutes, OtpMaximumAttempts := OtpMaximumAttempts,
        RedisHost := RedisHost, RedisPort := RedisPort, RedisPassword := RedisPassword,
        RedisDB := RedisDB, CacheExpirationSeconds := CacheExpirationSeconds,
        GoogleClientID := GoogleClientID, GoogleClientSecret := GoogleClientSecret,
        GoogleRedirectURL := GoogleRedirectURL },
      none)

/-! ## Reference definitions for the statements -/

/-- Value of a string of decimal digits read from the left, continuing from
the value `n` of the digits already read. -/
def decValue (n : Nat) (cs : List Char) : Nat :=
  cs.foldl (fun a c => a * 10 + (c.toNat - 48)) n

/-- The integer denoted by a string of the form "optional single leading `+`
or `-`, then one or more ASCII decimal digits" whose value lies in the signed
64-bit range; `none` for every other string. -/
def goIntValue? (v : String) : Option Int :=
  let neg : Bool := decide (v.data.head? = some '-')
  let ds : List Char :=
    match v.data with
    | c :: cs => if c = '+' ∨ c = '-' then cs else c :: cs
    | [] => []
  if ds ≠ [] ∧ ds.all isDigitByte = true then
    let z : Int := if neg then -((decValue 0 ds : Nat) : Int) else ((decValue 0 ds : Nat) : Int)
    if -(2 : Int) ^ 63 ≤ z ∧ z < (2 : Int) ^ 63 then some z else none
  else none


/-! ## The keys `NewEnv` reads, and its result in closed form -/

/-- The twelve integer-typed keys, in the order in which `NewEnv` reads them. -/
def intKeys : List String :=
  ["REFRESH_TOKEN_EXPIRE_HOURS",
   "ACCESS_TOKEN_EXPIRE_MINUTES",
   "CONTEXT_TIMEOUT_SECONDS",
   "PAGE",
   "PAGE_SIZE",
   "PASSWORD_RESET_TOKEN_EXPIRE_MINUTES",
   "SMTP_PORT",
   "OTP_EXPIRE_MINUTES",
   "OTP_MAXIMUM_ATTEMPTS",
   "REDIS_PORT",
   "REDIS_DB",
   "CACHE_EXPIRATION_SECONDS"]

/-- The twenty-seven string-typed keys, in the order in which `NewEnv` reads them. -/
def stringKeys : List String :=
  ["PORT",
   "APP_ENV",
   "DB_URI",
   "DB_NAME",
   "REFRESH_TOKEN_SECRET",
   "ACCESS_TOKEN_SECRET",
   "RECENCY",
   "USER_COLLECTION",
   "REFRESH_TOKEN_COLLECTION",
   "PASSWORD_RESET_TOKEN_COLLECTION",
   "SMTP_HOST",
   "SMTP_FROM",
   "SMTP_USERNAME",
   "SMTP_PASSWORD",
   "RESET_URL",
   "GEMINI_API_KEY",
   "GEMINI_MODEL_NAME",
   "IMAGEKIT_PRIVATE_KEY",
   "IMAGEKIT_PUBLIC_KEY",
   "IMAGEKIT_URL_ENDPOINT",
   "MY_SUPER_SECRET_SALT",
   "OTP_COLLECTION",
   "REDIS_HOST",
   "REDIS_PASSWORD",
   "GOOGLE_CLIENT_ID",
   "GOOGLE_CLIENT_SECRET",
   "GOOGLE_REDIRECT_URL"]

/-- Every key `NewEnv` looks up. -/
def readKeys : List String := stringKeys ++ intKeys

/-- The error, if any, that `getEnvAsInt` reports for a key: the error of
`Atoi` on the value when the variable is set. -/
def intErr (os : Environ) (key : String) : Option GoError :=
  match os key with
  | some v => (Atoi v).2
  | none => none

/-- The record whose fields are what `getEnv` and `getEnvAsInt` return for
each field's own key and default. -/
def fields (os : Environ) : Env :=
  { Port := getEnv os "PORT" ":8080",
    AppEnv := getEnv os "APP_ENV" "development",
    DB_Uri := getEnv os "DB_URI" "",
    DB_Name := getEnv os "DB_NAME" "",
    RTS := getEnv os "REFRESH_TOKEN_SECRET" "",
    ATS := getEnv os "ACCESS_TOKEN_SECRET" "",
    RefTEHours := (getEnvAsInt os "REFRESH_TOKEN_EXPIRE_HOURS" (24 * 7)).1,
    AccTEMinutes := (getEnvAsInt os "ACCESS_TOKEN_EXPIRE_MINUTES" 15).1,
    CtxTSeconds := (getEnvAsInt os "CONTEXT_TIMEOUT_SECONDS" 10).1,
    Page := (getEnvAsInt os "PAGE" 1).1,
    PageSize := (getEnvAsInt os "PAGE_SIZE" 10).1,
    Recency := getEnv os "RECENCY" "new",
    UserCollection := getEnv os "USER_COLLECTION" "users",
    RefreshTokenCollection := getEnv os "REFRESH_TOKEN_COLLECTION" "refresh_tokens",
    PasswordResetCollection := getEnv os "PASSWORD_RESET_TOKEN_COLLECTION" "password_resets",
    PasswordResetExpiry := (getEnvAsInt os "PASSWORD_RESET_TOKEN_EXPIRE_MINUTES" 15).1,
    SMTPHost := getEnv os "SMTP_HOST" "smtp.gmail.com",
    SMTPPort := (getEnvAsInt os "SMTP_PORT" 587).1,
    SMTPFrom := getEnv os "SMTP_FROM" "",
    SMTPUsername := getEnv os "SMTP_USERNAME" "",
    SMTPPassword := getEnv os "SMTP_PASSWORD" "",
    ResetURL := getEnv os "RESET_URL" "http://localhost:3000/reset-password",
    GeminiAPIKey := getEnv os "GEMINI_API_KEY" "",
    GeminiModelName := getEnv os "GEMINI_MODEL_NAME" "gemini-2.0-flash",
    ImageKitPrivateKey := getEnv os "IMAGEKIT_PRIVATE_KEY" "",
    ImageKitPublicKey := getEnv os "IMAGEKIT_PUBLIC_KEY" "",
    ImageKitEndpoint := getEnv os "IMAGEKIT_URL_ENDPOINT" "",
    SecretSalt := getEnv os "MY_SUPER_SECRET_SALT" "",
    OtpCollection := getEnv os "OTP_COLLECTION" "otps",
    OtpExpireMinutes := (getEnvAsInt os "OTP_EXPIRE_MINUTES" 5).1,
    OtpMaximumAttempts := (getEnvAsInt os "OTP_MAXIMUM_ATTEMPTS" 3).1,
    RedisHost := getEnv os "REDIS_HOST" "localhost",
    RedisPort := (getEnvAsInt os "REDIS_PORT" 6379).1,
    RedisPassword := getEnv os "REDIS_PASSWORD" "",
    RedisDB := (getEnvAsInt os "REDIS_DB" 0).1,
    CacheExpirationSeconds := (getEnvAsInt os "CACHE_EXPIRATION_SECONDS" 3600).1,
    GoogleClientID := getEnv os "GOOGLE_CLIENT_ID" "",
    GoogleClientSecret := getEnv os "GOOGLE_CLIENT_SECRET" "",
    GoogleRedirectURL := getEnv os "GOOGLE_REDIRECT_URL" "" }


/-- The decimal rendering of an integer: a `-` sign for a negative number,
then its decimal digits without leading zeros. -/
def decimal (n : Int) : String := Int.repr n

/-- The first integer-typed key, in reading order, whose variable is set to a
value that `Atoi` rejects, together with that value. -/
def firstUnparsable? (os : Environ) : Option (String × String) :=
  intKeys.findSome? fun k =>
    match os k with
    | some v => if (Atoi v).2.isSome then some (k, v) else none
    | none => none

/-- The environment in which exactly the listed variables are set; the first
binding of a key counts. -/
def envOfList (vars : List (String × String)) : Environ := fun k => vars.lookup k

/-- The configuration in which every field has its declared default, except
the data-store URI, which is given. -/
def defaultsWith (uri : String) : Env :=
  { Port := ":8080",
    AppEnv := "development",
    DB_Uri := uri,
    DB_Name := "",
    RTS := "",
    ATS := "",
    RefTEHours := 168,
    AccTEMinutes := 15,
    CtxTSeconds := 10,
    Page := 1,
    PageSize := 10,
    Recency := "new",
    UserCollection := "users",
    RefreshTokenCollection := "refresh_tokens",
    PasswordResetCollection := "password_resets",
    PasswordResetExpiry := 15,
    SMTPHost := "smtp.gmail.com",
    SMTPPort := 587,
    SMTPFrom := "",
    SMTPUsername := "",
    SMTPPassword := "",
    ResetURL := "http://localhost:3000/reset-password",
    GeminiAPIKey := "",
    GeminiModelName := "gemini-2.0-flash",
    ImageKitPrivateKey := "",
    ImageKitPublicKey := "",
    ImageKitEndpoint := "",
    SecretSalt := "",
    OtpCollection := "otps",
    OtpExpireMinutes := 5,
    OtpMaximumAttempts := 3,
    RedisHost := "localhost",
    RedisPort := 6379,
    RedisPassword := "",
    RedisDB := 0,
    CacheExpirationSeconds := 3600,
    GoogleClientID := "",
    GoogleClientSecret := "",
    GoogleRedirectURL := "" }

/-- A string holds a NUL byte. -/
def hasNul (v : String) : Bool := v.data.any (fun c => c.toNat == 0)

/-- A name that `os.Setenv` accepts as a key: not empty, without `=` and
without a NUL byte. -/
def keyOk (key : String) : Bool :=
  !key.data.isEmpty && key.data.all (fun c => c != '=' && c.toNat != 0)

/-- Modelled from the spec: whether Go's `os.Setenv(key, value)` succeeds
(standard library, not under `src/`): it fails with `EINVAL` on an empty key,
on `=` or a NUL byte in the key, and on a NUL byte in the value. -/
def setenvOk (key value : String) : Bool := keyOk key && !hasNul value

/-- Modelled from the spec: `godotenv.Load()` is third-party code that is not
under `src/`.  The spec says it "reads an optional dotenv-style file into the
process's environment (without overriding already-set variables)" and that
"failure to find/parse this file is silently ignored".  `file` is the parsed
content of the dotenv file as a lookup, or `none` when the file is missing or
cannot be parsed; the result is the process environment afterwards.  The
library sets each binding of the file whose key is not yet set with
`os.Setenv` and drops that call's error, so a binding `os.Setenv` rejects
leaves the variable unset. -/
def godotenvLoad (file : Option Environ) (os : Environ) : Environ :=
  match file with
  | none => os
  | some f => fun k =>
    match os k with
    | some v => some v
    | none =>
      match f k with
      | some v => if setenvOk k v then some v else none
      | none => none

/-- Go's `NewEnv()` as a step on the process: `_ = godotenv.Load()` first
changes the process environment, then the fields are read from it.  The
result is the returned pair together with the process environment left
behind. -/
def NewEnvProcess (file : Option Environ) (os : Environ) :
    (Option Env × Option GoError) × Environ :=
  let os1 := godotenvLoad file os
  (NewEnv os1, os1)

/-- The strings the claim calls valid integers, with their value: `v` is an
optional single leading `+` or `-` (`sign`) followed by one or more ASCII
decimal digits (`digits`, leading zeros allowed), and the signed value `z` of
the digits lies in the signed 64-bit range. -/
def IsGoInt (v : String) (z : Int) : Prop :=
  ∃ sign digits : List Char, v.data = sign ++ digits ∧
    (sign = [] ∨ sign = ['+'] ∨ sign = ['-']) ∧ digits ≠ [] ∧
    (∀ c ∈ digits, isDigitByte c = true) ∧
    z = (if sign = ['-'] then -((decValue 0 digits : Nat) : Int)
          else ((decValue 0 digits : Nat) : Int)) ∧
    -(2 : Int) ^ 63 ≤ z ∧ z < (2 : Int) ^ 63

/-- A string field holds "the environment-supplied string or a hardcoded
default": the value of `key` in the environment `os` that is read, or `dflt`
when `key` is not set there. -/
def StringFieldOf (os : Environ) (key dflt field : String) : Prop :=
  match os key with
  | some v => field = v
  | none => field = dflt

/-- An integer field holds "the parsed integer form" of the
environment-supplied string, "or a hardcoded default": the integer that the
value of `key` in `os` denotes, or `dflt` when `key` is not set there. -/
def IntFieldOf (os : Environ) (key : String) (dflt field : Int) : Prop :=
  match os key with
  | some v => IsGoInt v field
  | none => field = dflt

/-- Where a string field comes from, given the process environment `E`
before the load and the dotenv content `file`: from `E` when `key` is set in
`E`; from the file when `key` is not set in `E` and the file gives it a value
without a NUL byte; the default `dflt` when `key` is not set in `E` and the
file is unusable, lacks `key`, or gives it a value with a NUL byte. -/
def StringFieldFrom (file : Option Environ) (E : Environ) (key dflt field : String) : Prop :=
  (∀ v, E key = some v → field = v) ∧
  (∀ F v, file = some F → E key = none → F key = some v → hasNul v = false → field = v) ∧
  (E key = none →
    (file = none ∨ ∃ F, file = some F ∧ (F key = none ∨ ∃ v, F key = some v ∧ hasNul v = true)) →
    field = dflt)

/-- Where an integer field comes from, given `E` and `file` as in
`StringFieldFrom`: the integer denoted by the value that `E`, or else the
file, gives to `key`, or the default `dflt`. -/
def IntFieldFrom (file : Option Environ) (E : Environ) (key : String) (dflt field : Int) : Prop :=
  (∀ v, E key = some v → IsGoInt v field) ∧
  (∀ F v, file = some F → E key = none → F key = some v → hasNul v = false → IsGoInt v field) ∧
  (E key = none →
    (file = none ∨ ∃ F, file = some F ∧ (F key = none ∨ ∃ v, F key = some v ∧ hasNul v = true)) →
    field = dflt)

/-- Every field of `cfg` has the value the environment `os` determines: the
value of the field's own key (for an integer field, the integer it denotes),
or the field's declared default when the key is not set. -/
def DeterminedBy (os : Environ) (cfg : Env) : Prop :=
  StringFieldOf os "PORT" ":8080" cfg.Port ∧
  StringFieldOf os "APP_ENV" "development" cfg.AppEnv ∧
  StringFieldOf os "DB_URI" "" cfg.DB_Uri ∧
  StringFieldOf os "DB_NAME" "" cfg.DB_Name ∧
  StringFieldOf os "REFRESH_TOKEN_SECRET" "" cfg.RTS ∧
  StringFieldOf os "ACCESS_TOKEN_SECRET" "" cfg.ATS ∧
  IntFieldOf os "REFRESH_TOKEN_EXPIRE_HOURS" 168 cfg.RefTEHours ∧
  IntFieldOf os "ACCESS_TOKEN_EXPIRE_MINUTES" 15 cfg.AccTEMinutes ∧
  IntFieldOf os "CONTEXT_TIMEOUT_SECONDS" 10 cfg.CtxTSeconds ∧
  IntFieldOf os "PAGE" 1 cfg.Page ∧
  IntFieldOf os "PAGE_SIZE" 10 cfg.PageSize ∧
  StringFieldOf os "RECENCY" "new" cfg.Recency ∧
  StringFieldOf os "USER_COLLECTION" "users" cfg.UserCollection ∧
  StringFieldOf os "REFRESH_TOKEN_COLLECTION" "refresh_tokens" cfg.RefreshTokenCollection ∧
  StringFieldOf os "PASSWORD_RESET_TOKEN_COLLECTION" "password_resets" cfg.PasswordResetCollection ∧
  IntFieldOf os "PASSWORD_RESET_TOKEN_EXPIRE_MINUTES" 15 cfg.PasswordResetExpiry ∧
  StringFieldOf os "SMTP_HOST" "smtp.gmail.com" cfg.SMTPHost ∧
  IntFieldOf os "SMTP_PORT" 587 cfg.SMTPPort ∧
  StringFieldOf os "SMTP_FROM" "" cfg.SMTPFrom ∧
  StringFieldOf os "SMTP_USERNAME" "" cfg.SMTPUsername ∧
  StringFieldOf os "SMTP_PASSWORD" "" cfg.SMTPPassword ∧
  StringFieldOf os "RESET_URL" "http://localhost:3000/reset-password" cfg.ResetURL ∧
  StringFieldOf os "GEMINI_API_KEY" "" cfg.GeminiAPIKey ∧
  StringFieldOf os "GEMINI_MODEL_NAME" "gemini-2.0-flash" cfg.GeminiModelName ∧
  StringFieldOf os "IMAGEKIT_PRIVATE_KEY" "" cfg.ImageKitPrivateKey ∧
  StringFieldOf os "IMAGEKIT_PUBLIC_KEY" "" cfg.ImageKitPublicKey ∧
  StringFieldOf os "IMAGEKIT_URL_ENDPOINT" "" cfg.ImageKitEndpoint ∧
  StringFieldOf os "MY_SUPER_SECRET_SALT" "" cfg.SecretSalt ∧
  StringFieldOf os "OTP_COLLECTION" "otps" cfg.OtpCollection ∧
  IntFieldOf os "OTP_EXPIRE_MINUTES" 5 cfg.OtpExpireMinutes ∧
  IntFieldOf os "OTP_MAXIMUM_ATTEMPTS" 3 cfg.OtpMaximumAttempts ∧
  StringFieldOf os "REDIS_HOST" "localhost" cfg.RedisHost ∧
  IntFieldOf os "REDIS_PORT" 6379 cfg.RedisPort ∧
  StringFieldOf os "REDIS_PASSWORD" "" cfg.RedisPassword ∧
  IntFieldOf os "REDIS_DB" 0 cfg.RedisDB ∧
  IntFieldOf os "CACHE_EXPIRATION_SECONDS" 3600 cfg.CacheExpirationSeconds ∧
  StringFieldOf os "GOOGLE_CLIENT_ID" "" cfg.GoogleClientID ∧
  StringFieldOf os "GOOGLE_CLIENT_SECRET" "" cfg.GoogleClientSecret ∧
  StringFieldOf os "GOOGLE_REDIRECT_URL" "" cfg.GoogleRedirectURL

/-- Every field of `cfg` is read from the process environment `E` when its
key is set there, else from the dotenv content `file` when that gives the key
a value `os.Setenv` accepts, else it is the field's declared default. -/
def ReadFrom (file : Option Environ) (E : Environ) (cfg : Env) : Prop :=
  StringFieldFrom file E "PORT" ":8080" cfg.Port ∧
  StringFieldFrom file E "APP_ENV" "development" cfg.AppEnv ∧
  StringFieldFrom file E "DB_URI" "" cfg.DB_Uri ∧
  StringFieldFrom file E "DB_NAME" "" cfg.DB_Name ∧
  StringFieldFrom file E "REFRESH_TOKEN_SECRET" "" cfg.RTS ∧
  StringFieldFrom file E "ACCESS_TOKEN_SECRET" "" cfg.ATS ∧
  IntFieldFrom file E "REFRESH_TOKEN_EXPIRE_HOURS" 168 cfg.RefTEHours ∧
  IntFieldFrom file E "ACCESS_TOKEN_EXPIRE_MINUTES" 15 cfg.AccTEMinutes ∧
  IntFieldFrom file E "CONTEXT_TIMEOUT_SECONDS" 10 cfg.CtxTSeconds ∧
  IntFieldFrom file E "PAGE" 1 cfg.Page ∧
  IntFieldFrom file E "PAGE_SIZE" 10 cfg.PageSize ∧
  StringFieldFrom file E "RECENCY" "new" cfg.Recency ∧
  StringFieldFrom file E "USER_COLLECTION" "users" cfg.UserCollection ∧
  StringFieldFrom file E "REFRESH_TOKEN_COLLECTION" "refresh_tokens" cfg.RefreshTokenCollection ∧
  StringFieldFrom file E "PASSWORD_RESET_TOKEN_COLLECTION" "password_resets" cfg.PasswordResetCollection ∧
  IntFieldFrom file E "PASSWORD_RESET_TOKEN_EXPIRE_MINUTES" 15 cfg.PasswordResetExpiry ∧
  StringFieldFrom file E "SMTP_HOST" "smtp.gmail.com" cfg.SMTPHost ∧
  IntFieldFrom file E "SMTP_PORT" 587 cfg.SMTPPort ∧
  StringFieldFrom file E "SMTP_FROM" "" cfg.SMTPFrom ∧
  StringFieldFrom file E "SMTP_USERNAME" "" cfg.SMTPUsername ∧
  StringFieldFrom file E "SMTP_PASSWORD" "" cfg.SMTPPassword ∧
  StringFieldFrom file E "RESET_URL" "http://localhost:3000/reset-password" cfg.ResetURL ∧
  StringFieldFrom file E "GEMINI_API_KEY" "" cfg.GeminiAPIKey ∧
  StringFieldFrom file E "GEMINI_MODEL_NAME" "gemini-2.0-flash" cfg.GeminiModelName ∧
  StringFieldFrom file E "IMAGEKIT_PRIVATE_KEY" "" cfg.ImageKitPrivateKey ∧
  StringFieldFrom file E "IMAGEKIT_PUBLIC_KEY" "" cfg.ImageKitPublicKey ∧
  StringFieldFrom file E "IMAGEKIT_URL_ENDPOINT" "" cfg.ImageKitEndpoint ∧
  StringFieldFrom file E "MY_SUPER_SECRET_SALT" "" cfg.SecretSalt ∧
  StringFieldFrom file E "OTP_COLLECTION" "otps" cfg.OtpCollection ∧
  IntFieldFrom file E "OTP_EXPIRE_MINUTES" 5 cfg.OtpExpireMinutes ∧
  IntFieldFrom file E "OTP_MAXIMUM_ATTEMPTS" 3 cfg.OtpMaximumAttempts ∧
  StringFieldFrom file E "REDIS_HOST" "localhost" cfg.RedisHost ∧
  IntFieldFrom file E "REDIS_PORT" 6379 cfg.RedisPort ∧
  StringFieldFrom file E "REDIS_PASSWORD" "" cfg.RedisPassword ∧
  IntFieldFrom file E "REDIS_DB" 0 cfg.RedisDB ∧
  IntFieldFrom file E "CACHE_EXPIRATION_SECONDS" 3600 cfg.CacheExpirationSeconds ∧
  StringFieldFrom file E "GOOGLE_CLIENT_ID" "" cfg.GoogleClientID ∧
  StringFieldFrom file E "GOOGLE_CLIENT_SECRET" "" cfg.GoogleClientSecret ∧
  StringFieldFrom file E "GOOGLE_REDIRECT_URL" "" cfg.GoogleRedirectURL
/-! ## Lemmas on `strconv.Atoi` -/

theorem decValue_cons (n : Nat) (c : Char) (cs : List Char) :
    decValue n (c :: cs) = decValue (n * 10 + (c.toNat - 48)) cs := rfl

theorem le_decValue (cs : List Char) : ∀ n : Nat, n ≤ decValue n cs := by
  induction cs with
  | nil => intro n; exact Nat.le_refl n
  | cons c cs ih =>
    intro n
    rw [decValue_cons]
    have := ih (n * 10 + (c.toNat - 48))
    omega

theorem decValue_lt_pow (cs : List Char) (hd : cs.all isDigitByte = true) :
    ∀ n : Nat, decValue n cs < (n + 1) * 10 ^ cs.length := by
  induction cs with
  | nil => intro n; simp [decValue]
  | cons c cs ih =>
    intro n
    simp only [List.all_cons, Bool.and_eq_true] at hd
    have hc : c.toNat - 48 ≤ 9 := by
      have := hd.1
      simp only [isDigitByte, decide_eq_true_eq] at this
      omega
    rw [decValue_cons, List.length_cons, pow_succ]
    have h1 := ih hd.2 (n * 10 + (c.toNat - 48))
    have h2 : (n * 10 + (c.toNat - 48) + 1) * 10 ^ cs.length ≤ ((n + 1) * 10) * 10 ^ cs.length :=
      Nat.mul_le_mul_right _ (by omega)
    calc decValue (n * 10 + (c.toNat - 48)) cs
        < (n * 10 + (c.toNat - 48) + 1) * 10 ^ cs.length := h1
      _ ≤ ((n + 1) * 10) * 10 ^ cs.length := h2
      _ = (n + 1) * (10 ^ cs.length * 10) := by ring

/-- The loop of `ParseUint`: it returns the value of the digits when they are
all digits and the value fits 64 bits, and otherwise a syntax error with
value 0 or a range error with value `maxUint64`. -/
theorem ParseUint_loop_spec (s0 : String) (cs : List Char) :
    ∀ n : Nat, n < 2 ^ 64 →
      (cs.all isDigitByte = true ∧ decValue n cs < 2 ^ 64 →
        ParseUint.loop s0 cs n = (decValue n cs, none)) ∧
      (¬ (cs.all isDigitByte = true ∧ decValue n cs < 2 ^ 64) →
        ParseUint.loop s0 cs n = (0, some (syntaxError "ParseUint" s0)) ∨
        ParseUint.loop s0 cs n = (maxUint64, some (rangeError "ParseUint" s0))) := by
  induction cs with
  | nil =>
    intro n hn
    refine ⟨fun _ => rfl, fun h => ?_⟩
    exact absurd ⟨by simp, by simpa [decValue] using hn⟩ h
  | cons c cs ih =>
    intro n hn
    rw [decValue_cons]
    simp only [List.all_cons, Bool.and_eq_true]
    unfold ParseUint.loop
    by_cases hdig : isDigitByte c = true
    · have hc : 48 ≤ c.toNat ∧ c.toNat ≤ 57 := by
        simpa only [isDigitByte, decide_eq_true_eq] using hdig
      have hmono := le_decValue cs (n * 10 + (c.toNat - 48))
      simp only [hdig, if_true, maxUint64]
      have hd10 : ¬ (c.toNat - 48 ≥ 10) := by omega
      simp only [hd10, if_false]
      by_cases hcut : n ≥ (2 ^ 64 - 1) / 10 + 1
      · simp only [hcut, if_true]
        refine ⟨fun h => ?_, fun _ => Or.inr trivial⟩
        have := h.2
        omega
      · simp only [hcut, if_false]
        have hn10 : n * 10 % 2 ^ 64 = n * 10 := Nat.mod_eq_of_lt (by omega)
        simp only [hn10]
        by_cases hov : n * 10 + (c.toNat - 48) < 2 ^ 64
        · have hn1 : (n * 10 + (c.toNat - 48)) % 2 ^ 64 = n * 10 + (c.toNat - 48) :=
            Nat.mod_eq_of_lt hov
          have hno : ¬ (n * 10 + (c.toNat - 48) < n * 10 ∨ n * 10 + (c.toNat - 48) > 2 ^ 64 - 1) := by
            omega
          simp only [hn1, hno, if_false]
          have := ih (n * 10 + (c.toNat - 48)) hov
          refine ⟨fun h => this.1 ⟨h.1.2, h.2⟩, fun h => this.2 (fun h2 => h ⟨⟨trivial, h2.1⟩, h2.2⟩)⟩
        · have hyes : (n * 10 + (c.toNat - 48)) % 2 ^ 64 < n * 10 ∨
              (n * 10 + (c.toNat - 48)) % 2 ^ 64 > 2 ^ 64 - 1 := by
            left; omega
          simp only [hyes, if_true]
          refine ⟨fun h => ?_, fun _ => Or.inr trivial⟩
          have := h.2
          omega
    · have hdig2 : isDigitByte c = false := by simpa using hdig
      simp only [hdig2, Bool.false_eq_true, if_false, false_and, not_false_eq_true, forall_true_left,
        IsEmpty.forall_iff, true_and]
      left
      by_cases hlet : isLetterByte c = true
      · simp only [hlet, if_true]
        have : (c.toNat ||| 32) - 97 + 10 ≥ 10 := by omega
        simp only [this, if_true]
      · have hlet2 : isLetterByte c = false := by simpa using hlet
        simp only [hlet2, Bool.false_eq_true, if_false]

/-- Go's `strconv.ParseUint`, on the string with characters `cs`. -/
theorem ParseUint_spec (cs : List Char) :
    (cs ≠ [] ∧ cs.all isDigitByte = true ∧ decValue 0 cs < 2 ^ 64 →
      ParseUint ⟨cs⟩ = (decValue 0 cs, none)) ∧
    (¬ (cs ≠ [] ∧ cs.all isDigitByte = true ∧ decValue 0 cs < 2 ^ 64) →
      ParseUint ⟨cs⟩ = (0, some (syntaxError "ParseUint" ⟨cs⟩)) ∨
      ParseUint ⟨cs⟩ = (maxUint64, some (rangeError "ParseUint" ⟨cs⟩))) := by
  unfold ParseUint
  by_cases hcs : cs = []
  · subst hcs
    simp
  · have h := ParseUint_loop_spec ⟨cs⟩ cs 0 (by norm_num)
    simp only [hcs, if_false, ne_eq, not_false_eq_true, true_and]
    exact h

theorem wrap64_of_range (z : Int) (h1 : -(2 : Int) ^ 63 ≤ z) (h2 : z < (2 : Int) ^ 63) :
    wrap64 z = z := by
  unfold wrap64
  norm_num at h1 h2 ⊢
  omega

/-- The fast-path loop of `Atoi` rejects a string with a non-digit. -/
theorem Atoi_loop_bad (s0 : String) (cs : List Char) (h : cs.all isDigitByte = false) :
    ∀ z : Int, Atoi.loop s0 cs z = (0, some (syntaxError "Atoi" s0)) := by
  induction cs with
  | nil => simp at h
  | cons c cs ih =>
    intro z
    unfold Atoi.loop
    by_cases hc : isDigitByte c = true
    · simp only [hc, if_true]
      apply ih
      simpa [hc] using h
    · simp only [hc, if_false]
      simp

/-- The fast-path loop of `Atoi` computes the value of a digit string as long
as that value stays below `2 ^ 63`. -/
theorem Atoi_loop_good (s0 : String) (cs : List Char) (h : cs.all isDigitByte = true) :
    ∀ n : Nat, decValue n cs < 2 ^ 63 →
      Atoi.loop s0 cs (n : Int) = (((decValue n cs : Nat) : Int), none) := by
  induction cs with
  | nil => intro n _; rfl
  | cons c cs ih =>
    intro n hlt
    simp only [List.all_cons, Bool.and_eq_true] at h
    rw [decValue_cons] at hlt ⊢
    unfold Atoi.loop
    simp only [h.1, if_true]
    have hmono := le_decValue cs (n * 10 + (c.toNat - 48))
    have hw : wrap64 ((n : Int) * 10 + ((c.toNat - 48 : Nat) : Int))
        = ((n * 10 + (c.toNat - 48) : Nat) : Int) := by
      rw [wrap64_of_range]
      · push_cast; rfl
      · have : (0 : Int) ≤ (n : Int) * 10 + ((c.toNat - 48 : Nat) : Int) := by positivity
        have h0 : -(2 : Int) ^ 63 ≤ 0 := by norm_num
        exact le_trans h0 this
      · have : ((n * 10 + (c.toNat - 48) : Nat) : Int) < (2 : Int) ^ 63 := by
          have h3 : n * 10 + (c.toNat - 48) < 2 ^ 63 := lt_of_le_of_lt hmono hlt
          exact_mod_cast h3
        push_cast at this
        exact this
    rw [hw]
    exact ih h.2 _ hlt

theorem length_le_utf8Len (cs : List Char) : cs.length ≤ String.utf8Len cs := by
  induction cs with
  | nil => simp
  | cons c cs ih =>
    have := c.utf8Size_pos
    simp only [List.length_cons, String.utf8Len_cons]
    omega


/-- What `ParseInt` does after the sign has been picked off, in terms of the
sign `neg` and the remaining characters `ds`. -/
theorem ParseInt_cons (c : Char) (cs : List Char) :
    ParseInt ⟨c :: cs⟩ =
      (let neg : Bool := decide (c = '-')
       let ds : List Char := if c = '+' ∨ c = '-' then cs else c :: cs
       let r := ParseUint ⟨ds⟩
       match r.2 with
       | some ⟨_, _, NumErrKind.ErrSyntax⟩ => (0, some ⟨"ParseInt", ⟨c :: cs⟩, NumErrKind.ErrSyntax⟩)
       | _ =>
         if !neg && decide (r.1 ≥ 2 ^ 63) then
           (toInt64 (2 ^ 63 - 1), some (rangeError "ParseInt" ⟨c :: cs⟩))
         else if neg && decide (r.1 > 2 ^ 63) then
           (wrap64 (-toInt64 (2 ^ 63)), some (rangeError "ParseInt" ⟨c :: cs⟩))
         else (if neg then wrap64 (-toInt64 r.1) else toInt64 r.1, none)) := by
  unfold ParseInt
  simp only [intSize]
  by_cases hp : c = '+'
  · subst hp; simp
  · by_cases hm : c = '-'
    · subst hm; simp
    · simp [hp, hm]

theorem goIntValue_cons (c : Char) (cs : List Char) :
    goIntValue? ⟨c :: cs⟩ =
      (let neg : Bool := decide (c = '-')
       let ds : List Char := if c = '+' ∨ c = '-' then cs else c :: cs
       if ds ≠ [] ∧ ds.all isDigitByte = true then
         let z : Int := if neg then -((decValue 0 ds : Nat) : Int) else ((decValue 0 ds : Nat) : Int)
         if -(2 : Int) ^ 63 ≤ z ∧ z < (2 : Int) ^ 63 then some z else none
       else none) := by
  unfold goIntValue?
  simp


theorem toInt64_of_lt (u : Nat) (h : u < 2 ^ 63) : toInt64 u = (u : Int) := by
  unfold toInt64
  apply wrap64_of_range
  · have : (0 : Int) ≤ (u : Int) := by positivity
    have h0 : -(2 : Int) ^ 63 ≤ 0 := by norm_num
    exact le_trans h0 this
  · exact_mod_cast h

/-- Go's `strconv.ParseInt(s, 10, 0)` accepts exactly the strings that
`goIntValue?` gives a value, and returns that value. -/
theorem ParseInt_spec (s : String) :
    (∀ z, goIntValue? s = some z → ParseInt s = (z, none)) ∧
    (goIntValue? s = none → ∃ r k, ParseInt s = (r, some ⟨"ParseInt", s, k⟩)) := by
  obtain ⟨cs⟩ := s
  cases cs with
  | nil => simp [goIntValue?, ParseInt, syntaxError]
  | cons c cs =>
    rw [ParseInt_cons, goIntValue_cons]
    generalize decide (c = '-') = neg
    generalize (if c = '+' ∨ c = '-' then cs else c :: cs) = ds
    generalize (⟨c :: cs⟩ : String) = s0
    have hU := ParseUint_spec ds
    by_cases hgood : ds ≠ [] ∧ ds.all isDigitByte = true ∧ decValue 0 ds < 2 ^ 64
    · have hr := hU.1 hgood
      have h1 := hgood.1
      have h2 := hgood.2.1
      have h3 := hgood.2.2
      simp only [hr, h1, h2, ne_eq, not_false_eq_true, and_self, if_true]
      generalize decValue 0 ds = u at h3 ⊢
      have hcast : ∀ k : Nat, ((u : Int) < (2 : Int) ^ k ↔ u < 2 ^ k) := fun k => by
        constructor <;> intro h <;> exact_mod_cast h
      have hpos : (0 : Int) ≤ (u : Int) := by positivity
      cases neg
      · simp only [Bool.false_eq_true, if_false, Bool.not_false, Bool.true_and, Bool.false_and,
          decide_eq_true_eq]
        by_cases hu : u ≥ 2 ^ 63
        · have hz : ¬ (-(2 : Int) ^ 63 ≤ (u : Int) ∧ (u : Int) < (2 : Int) ^ 63) := by
            rw [hcast]; omega
          rw [if_pos hu, if_neg hz]
          exact ⟨fun z hz => by simp at hz, fun _ => ⟨_, _, rfl⟩⟩
        · have hu2 : u < 2 ^ 63 := by omega
          have hz : -(2 : Int) ^ 63 ≤ (u : Int) ∧ (u : Int) < (2 : Int) ^ 63 := by
            rw [hcast]
            refine ⟨?_, hu2⟩
            have h0 : -(2 : Int) ^ 63 ≤ 0 := by norm_num
            exact le_trans h0 hpos
          rw [if_neg hu, if_pos hz, toInt64_of_lt u hu2]
          exact ⟨fun z hz => by simp at hz; rw [hz], fun h => by simp at h⟩
      · simp only [if_true, Bool.not_true, Bool.false_and, Bool.true_and, decide_eq_true_eq,
          Bool.false_eq_true, if_false]
        by_cases hu : u > 2 ^ 63
        · have hz : ¬ (-(2 : Int) ^ 63 ≤ -(u : Int) ∧ -(u : Int) < (2 : Int) ^ 63) := by
            have : (2 : Int) ^ 63 < (u : Int) := by exact_mod_cast hu
            omega
          rw [if_pos hu, if_neg hz]
          exact ⟨fun z hz => by simp at hz, fun _ => ⟨_, _, rfl⟩⟩
        · have hu2 : u ≤ 2 ^ 63 := by omega
          have hu3 : (u : Int) ≤ (2 : Int) ^ 63 := by exact_mod_cast hu2
          have hz : -(2 : Int) ^ 63 ≤ -(u : Int) ∧ -(u : Int) < (2 : Int) ^ 63 := by
            have h0 : (0 : Int) < (2 : Int) ^ 63 := by norm_num
            omega
          have hw : wrap64 (-toInt64 u) = -(u : Int) := by
            unfold toInt64 wrap64
            norm_num at hu3 ⊢
            omega
          rw [if_neg hu, if_pos hz, hw]
          exact ⟨fun z hz => by simp at hz; rw [hz], fun h => by simp at h⟩
    · have hnone : (if ds ≠ [] ∧ ds.all isDigitByte = true then
            (let z : Int := if neg = true then -((decValue 0 ds : Nat) : Int)
                else ((decValue 0 ds : Nat) : Int)
             if -(2 : Int) ^ 63 ≤ z ∧ z < (2 : Int) ^ 63 then some z else none)
          else none) = none := by
        by_cases hd : ds ≠ [] ∧ ds.all isDigitByte = true
        · have hbig : ¬ (decValue 0 ds < 2 ^ 64) := fun h => hgood ⟨hd.1, hd.2, h⟩
          have hbig2 : (2 : Int) ^ 64 ≤ ((decValue 0 ds : Nat) : Int) := by
            have : 2 ^ 64 ≤ decValue 0 ds := by omega
            exact_mod_cast this
          rw [if_pos hd]
          cases neg
          · simp only [Bool.false_eq_true, if_false]
            rw [if_neg]
            norm_num at hbig2 ⊢
            omega
          · simp only [if_true]
            rw [if_neg]
            norm_num at hbig2 ⊢
            omega
        · rw [if_neg hd]
      simp only [] at hnone ⊢
      rw [hnone]
      refine ⟨fun z hz => by simp at hz, fun _ => ?_⟩
      rcases hU.2 hgood with hr | hr
      · rw [hr]
        exact ⟨_, _, rfl⟩
      · rw [hr]
        cases neg
        · simp [maxUint64, rangeError]
        · simp [maxUint64, rangeError]


/-- The fast path of `Atoi` on a body of at most 18 characters. -/
theorem Atoi_fast_body (s0 : String) (neg : Bool) (ds : List Char) (hne : ds ≠ [])
    (hlen : ds.length ≤ 18) :
    (∀ z, (if ds ≠ [] ∧ ds.all isDigitByte = true then
            (let z : Int := if neg = true then -((decValue 0 ds : Nat) : Int)
                else ((decValue 0 ds : Nat) : Int)
             if -(2 : Int) ^ 63 ≤ z ∧ z < (2 : Int) ^ 63 then some z else none)
          else none) = some z →
        (match Atoi.loop s0 ds 0 with
          | (_, some e) => ((0 : Int), some (GoError.numError e))
          | (n, none) => (if neg = true then wrap64 (-n) else n, none)) = (z, none)) ∧
    ((if ds ≠ [] ∧ ds.all isDigitByte = true then
            (let z : Int := if neg = true then -((decValue 0 ds : Nat) : Int)
                else ((decValue 0 ds : Nat) : Int)
             if -(2 : Int) ^ 63 ≤ z ∧ z < (2 : Int) ^ 63 then some z else none)
          else none) = none →
        (match Atoi.loop s0 ds 0 with
          | (_, some e) => ((0 : Int), some (GoError.numError e))
          | (n, none) => (if neg = true then wrap64 (-n) else n, none))
          = (0, some (GoError.numError (syntaxError "Atoi" s0)))) := by
  by_cases hd : ds.all isDigitByte = true
  · have hlt : decValue 0 ds < 10 ^ 18 := by
      have h1 := decValue_lt_pow ds hd 0
      have h2 : 10 ^ ds.length ≤ 10 ^ 18 := Nat.pow_le_pow_right (by norm_num) hlen
      omega
    have hlt63 : decValue 0 ds < 2 ^ 63 := lt_of_lt_of_le hlt (by norm_num)
    have hloop := Atoi_loop_good s0 ds hd 0 hlt63
    simp only [Nat.cast_zero] at hloop
    rw [hloop, if_pos ⟨hne, hd⟩]
    generalize decValue 0 ds = u at hlt63 ⊢
    have hu : (u : Int) < (2 : Int) ^ 63 := by exact_mod_cast hlt63
    have hpos : (0 : Int) ≤ (u : Int) := by positivity
    have h63 : (2 : Int) ^ 63 = 9223372036854775808 := by norm_num
    cases neg
    · have hr : -(2 : Int) ^ 63 ≤ (u : Int) ∧ (u : Int) < (2 : Int) ^ 63 := by omega
      simp only [Bool.false_eq_true, if_false]
      rw [if_pos hr]
      exact ⟨fun z hz => by simp at hz; rw [hz], fun h => by simp at h⟩
    · have hr : -(2 : Int) ^ 63 ≤ -(u : Int) ∧ -(u : Int) < (2 : Int) ^ 63 := by omega
      simp only [if_true]
      rw [if_pos hr, wrap64_of_range _ hr.1 hr.2]
      exact ⟨fun z hz => by simp at hz; rw [hz], fun h => by simp at h⟩
  · have hd2 : ds.all isDigitByte = false := by simpa using hd
    rw [Atoi_loop_bad s0 ds hd2 0, if_neg (fun h => hd h.2)]
    exact ⟨fun z hz => by simp at hz, fun _ => rfl⟩

/-- Go's `strconv.Atoi` accepts exactly the strings that `goIntValue?` gives a
value, and returns that value; for every other string it returns a
`NumError` of function `Atoi` that carries the string itself. -/
theorem Atoi_spec (s : String) :
    (∀ z, goIntValue? s = some z → Atoi s = (z, none)) ∧
    (goIntValue? s = none →
      ∃ r k, Atoi s = (r, some (GoError.numError ⟨"Atoi", s, k⟩))) := by
  by_cases hfast : intSize = 64 ∧ 0 < s.utf8ByteSize ∧ s.utf8ByteSize < 19
  · obtain ⟨cs⟩ := s
    cases cs with
    | nil => exact absurd hfast.2.1 (Nat.lt_irrefl 0)
    | cons c0 cs =>
      have hlen : (c0 :: cs).length ≤ 18 := by
        have := length_le_utf8Len (c0 :: cs)
        have h2 := hfast.2.2
        simp only [String.utf8ByteSize_mk] at h2
        omega
      unfold Atoi
      rw [if_pos hfast, goIntValue_cons]
      simp only [List.length_cons] at hlen
      by_cases hs : c0 = '-' ∨ c0 = '+'
      · have hs2 : c0 = '+' ∨ c0 = '-' := hs.symm
        simp only [hs, hs2, decide_True, if_true, true_and]
        by_cases hcs : cs = []
        · subst hcs
          simp [syntaxError]
        · rw [if_neg hcs]
          have hb := Atoi_fast_body ⟨c0 :: cs⟩ (decide (c0 = '-')) cs hcs (by omega)
          simp only [decide_eq_true_eq] at hb ⊢
          refine ⟨hb.1, fun h => ?_⟩
          rw [hb.2 h]
          exact ⟨_, _, rfl⟩
      · have hs2 : ¬ (c0 = '+' ∨ c0 = '-') := fun h => hs h.symm
        simp only [hs, hs2, decide_False, if_false, Bool.false_eq_true, false_and]
        have hb := Atoi_fast_body ⟨c0 :: cs⟩ (decide (c0 = '-')) (c0 :: cs) (by simp)
          (by simp only [List.length_cons]; omega)
        simp only [decide_eq_true_eq] at hb ⊢
        refine ⟨hb.1, fun h => ?_⟩
        rw [hb.2 h]
        exact ⟨_, _, rfl⟩
  · unfold Atoi
    rw [if_neg hfast]
    have hP := ParseInt_spec s
    refine ⟨fun z hz => ?_, fun h => ?_⟩
    · rw [hP.1 z hz]
    · obtain ⟨r, k, hr⟩ := hP.2 h
      rw [hr]
      exact ⟨r, k, rfl⟩


/-! ## Closed form of `NewEnv` -/

theorem getEnvAsInt_snd (os : Environ) (key : String) (fallback : Int) :
    (getEnvAsInt os key fallback).2 = intErr os key := by
  unfold getEnvAsInt intErr
  cases os key with
  | none => rfl
  | some v =>
    simp only
    rcases hA : Atoi v with ⟨i, _ | e⟩ <;> rfl

/-- Closed form of `NewEnv`: the first error among the integer keys in reading
order, else the missing-URI error when `DB_URI` resolves to the empty string,
else the record of all fields. -/
theorem NewEnv_eq (os : Environ) :
    NewEnv os =
      match intKeys.findSome? (intErr os) with
      | some e => (none, some e)
      | none =>
        if getEnv os "DB_URI" "" = "" then (none, some missingDbUri)
        else (some (fields os), none) := by
  have key := getEnvAsInt_snd os
  rcases h1 : getEnvAsInt os "REFRESH_TOKEN_EXPIRE_HOURS" (24 * 7) with ⟨v1, _ | e1⟩
  swap
  · have k1 : intErr os "REFRESH_TOKEN_EXPIRE_HOURS" = some e1 := by rw [← key "REFRESH_TOKEN_EXPIRE_HOURS" (24 * 7), h1]
    simp only [NewEnv, intKeys, List.findSome?, h1, k1]
  have k1 : intErr os "REFRESH_TOKEN_EXPIRE_HOURS" = none := by rw [← key "REFRESH_TOKEN_EXPIRE_HOURS" (24 * 7), h1]
  rcases h2 : getEnvAsInt os "ACCESS_TOKEN_EXPIRE_MINUTES" 15 with ⟨v2, _ | e2⟩
  swap
  · have k2 : intErr os "ACCESS_TOKEN_EXPIRE_MINUTES" = some e2 := by rw [← key "ACCESS_TOKEN_EXPIRE_MINUTES" 15, h2]
    simp only [NewEnv, intKeys, List.findSome?, h1, k1, h2, k2]
  have k2 : intErr os "ACCESS_TOKEN_EXPIRE_MINUTES" = none := by rw [← key "ACCESS_TOKEN_EXPIRE_MINUTES" 15, h2]
  rcases h3 : getEnvAsInt os "CONTEXT_TIMEOUT_SECONDS" 10 with ⟨v3, _ | e3⟩
  swap
  · have k3 : intErr os "CONTEXT_TIMEOUT_SECONDS" = some e3 := by rw [← key "CONTEXT_TIMEOUT_SECONDS" 10, h3]
    simp only [NewEnv, intKeys, List.findSome?, h1, h2, k1, k2, h3, k3]
  have k3 : intErr os "CONTEXT_TIMEOUT_SECONDS" = none := by rw [← key "CONTEXT_TIMEOUT_SECONDS" 10, h3]
  rcases h4 : getEnvAsInt os "PAGE" 1 with ⟨v4, _ | e4⟩
  swap
  · have k4 : intErr os "PAGE" = some e4 := by rw [← key "PAGE" 1, h4]
    simp only [NewEnv, intKeys, List.findSome?, h1, h2, h3, k1, k2, k3, h4, k4]
  have k4 : intErr os "PAGE" = none := by rw [← key "PAGE" 1, h4]
  rcases h5 : getEnvAsInt os "PAGE_SIZE" 10 with ⟨v5, _ | e5⟩
  swap
  · have k5 : intErr os "PAGE_SIZE" = some e5 := by rw [← key "PAGE_SIZE" 10, h5]
    simp only [NewEnv, intKeys, List.findSome?, h1, h2, h3, h4, k1, k2, k3, k4, h5, k5]
  have k5 : intErr os "PAGE_SIZE" = none := by rw [← key "PAGE_SIZE" 10, h5]
  rcases h6 : getEnvAsInt os "PASSWORD_RESET_TOKEN_EXPIRE_MINUTES" 15 with ⟨v6, _ | e6⟩
  swap
  · have k6 : intErr os "PASSWORD_RESET_TOKEN_EXPIRE_MINUTES" = some e6 := by rw [← key "PASSWORD_RESET_TOKEN_EXPIRE_MINUTES" 15, h6]
    simp only [NewEnv, intKeys, List.findSome?, h1, h2, h3, h4, h5, k1, k2, k3, k4, k5, h6, k6]
  have k6 : intErr os "PASSWORD_RESET_TOKEN_EXPIRE_MINUTES" = none := by rw [← key "PASSWORD_RESET_TOKEN_EXPIRE_MINUTES" 15, h6]
  rcases h7 : getEnvAsInt os "SMTP_PORT" 587 with ⟨v7, _ | e7⟩
  swap
  · have k7 : intErr os "SMTP_PORT" = some e7 := by rw [← key "SMTP_PORT" 587, h7]
    simp only [NewEnv, intKeys, List.findSome?, h1, h2, h3, h4, h5, h6, k1, k2, k3, k4, k5, k6, h7, k7]
  have k7 : intErr os "SMTP_PORT" = none := by rw [← key "SMTP_PORT" 587, h7]
  rcases h8 : getEnvAsInt os "OTP_EXPIRE_MINUTES" 5 with ⟨v8, _ | e8⟩
  swap
  · have k8 : intErr os "OTP_EXPIRE_MINUTES" = some e8 := by rw [← key "OTP_EXPIRE_MINUTES" 5, h8]
    simp only [NewEnv, intKeys, List.findSome?, h1, h2, h3, h4, h5, h6, h7, k1, k2, k3, k4, k5, k6, k7, h8, k8]
  have k8 : intErr os "OTP_EXPIRE_MINUTES" = none := by rw [← key "OTP_EXPIRE_MINUTES" 5, h8]
  rcases h9 : getEnvAsInt os "OTP_MAXIMUM_ATTEMPTS" 3 with ⟨v9, _ | e9⟩
  swap
  · have k9 : intErr os "OTP_MAXIMUM_ATTEMPTS" = some e9 := by rw [← key "OTP_MAXIMUM_ATTEMPTS" 3, h9]
    simp only [NewEnv, intKeys, List.findSome?, h1, h2, h3, h4, h5, h6, h7, h8, k1, k2, k3, k4, k5, k6, k7, k8, h9, k9]
  have k9 : intErr os "OTP_MAXIMUM_ATTEMPTS" = none := by rw [← key "OTP_MAXIMUM_ATTEMPTS" 3, h9]
  rcases h10 : getEnvAsInt os "REDIS_PORT" 6379 with ⟨v10, _ | e10⟩
  swap
  · have k10 : intErr os "REDIS_PORT" = some e10 := by rw [← key "REDIS_PORT" 6379, h10]
    simp only [NewEnv, intKeys, List.findSome?, h1, h2, h3, h4, h5, h6, h7, h8, h9, k1, k2, k3, k4, k5, k6, k7, k8, k9, h10, k10]
  have k10 : intErr os "REDIS_PORT" = none := by rw [← key "REDIS_PORT" 6379, h10]
  rcases h11 : getEnvAsInt os "REDIS_DB" 0 with ⟨v11, _ | e11⟩
  swap
  · have k11 : intErr os "REDIS_DB" = some e11 := by rw [← key "REDIS_DB" 0, h11]
    simp only [NewEnv, intKeys, List.findSome?, h1, h2, h3, h4, h5, h6, h7, h8, h9, h10, k1, k2, k3, k4, k5, k6, k7, k8, k9, k10, h11, k11]
  have k11 : intErr os "REDIS_DB" = none := by rw [← key "REDIS_DB" 0, h11]
  rcases h12 : getEnvAsInt os "CACHE_EXPIRATION_SECONDS" 3600 with ⟨v12, _ | e12⟩
  swap
  · have k12 : intErr os "CACHE_EXPIRATION_SECONDS" = some e12 := by rw [← key "CACHE_EXPIRATION_SECONDS" 3600, h12]
    simp only [NewEnv, intKeys, List.findSome?, h1, h2, h3, h4, h5, h6, h7, h8, h9, h10, h11, k1, k2, k3, k4, k5, k6, k7, k8, k9, k10, k11, h12, k12]
  have k12 : intErr os "CACHE_EXPIRATION_SECONDS" = none := by rw [← key "CACHE_EXPIRATION_SECONDS" 3600, h12]
  simp only [NewEnv, fields, intKeys, List.findSome?, h1, h2, h3, h4, h5, h6, h7, h8, h9, h10, h11, h12, k1, k2, k3, k4, k5, k6, k7, k8, k9, k10, k11, k12]

/-! ## Decimal rendering and its round trip through `Atoi` -/

theorem digitChar_isDigit (k : Nat) (hk : k < 10) :
    isDigitByte (Nat.digitChar k) = true ∧ (Nat.digitChar k).toNat - 48 = k := by
  interval_cases k <;> exact ⟨by decide, by decide⟩

theorem decValue_append_single (m : Nat) (ds : List Char) (d : Char) :
    decValue m (ds ++ [d]) = decValue m ds * 10 + (d.toNat - 48) := by
  simp [decValue, List.foldl_append]

/-- The digits that `Nat.toDigitsCore 10` puts in front of the accumulator
are decimal digits whose value is the number rendered. -/
theorem toDigitsCore_spec : ∀ (fuel n : Nat) (acc : List Char), n < fuel →
    ∃ ds : List Char, Nat.toDigitsCore 10 fuel n acc = ds ++ acc ∧ ds ≠ [] ∧
      ds.all isDigitByte = true ∧ ∀ m, decValue m ds = m * 10 ^ ds.length + n := by
  intro fuel
  induction fuel with
  | zero => intro n acc h; omega
  | succ fuel ih =>
    intro n acc hn
    have hd := digitChar_isDigit (n % 10) (Nat.mod_lt _ (by norm_num))
    unfold Nat.toDigitsCore
    by_cases h0 : n / 10 = 0
    · have hlt : n < 10 := by omega
      have hmod : n % 10 = n := Nat.mod_eq_of_lt hlt
      refine ⟨[Nat.digitChar (n % 10)], ?_, by simp, by simp [hd.1], fun m => ?_⟩
      · simp [h0]
      · have h2 := hd.2
        rw [hmod] at h2 ⊢
        simp [decValue, h2]
    · obtain ⟨ds, h1, _, h3, h4⟩ := ih (n / 10) (Nat.digitChar (n % 10) :: acc) (by omega)
      refine ⟨ds ++ [Nat.digitChar (n % 10)], ?_, by simp, ?_, fun m => ?_⟩
      · simp only [h0, if_false]
        rw [h1]
        simp
      · simp [List.all_append, h3, hd.1]
      · rw [decValue_append_single, h4 m, hd.2, List.length_append, List.length_singleton,
          pow_succ]
        have := Nat.div_add_mod n 10
        nlinarith [this]

/-- Lean's decimal rendering of a natural number is a non-empty string of
decimal digits whose value is the number. -/
theorem Nat_repr_spec (n : Nat) :
    (Nat.repr n).data ≠ [] ∧ (Nat.repr n).data.all isDigitByte = true ∧
      decValue 0 (Nat.repr n).data = n := by
  obtain ⟨ds, h1, h2, h3, h4⟩ := toDigitsCore_spec (n + 1) n [] (by omega)
  have hdata : (Nat.repr n).data = ds := by
    simp [Nat.repr, Nat.toDigits, h1, List.asString]
  rw [hdata]
  refine ⟨h2, h3, ?_⟩
  rw [h4 0]
  simp

/-- The claim's "decimal rendering of an integer": Lean's `Int.repr`
(a `-` sign for negative numbers, then the decimal digits). -/
theorem goIntValue_decimal (n : Int) (h1 : -(2 : Int) ^ 63 ≤ n) (h2 : n < (2 : Int) ^ 63) :
    goIntValue? (decimal n) = some n := by
  unfold decimal
  cases n with
  | ofNat m =>
    obtain ⟨hne, hall, hval⟩ := Nat_repr_spec m
    have hrepr : Int.repr (Int.ofNat m) = ⟨(Nat.repr m).data⟩ := rfl
    rw [hrepr]
    generalize (Nat.repr m).data = ds at hne hall hval
    cases ds with
    | nil => exact absurd rfl hne
    | cons c cs =>
      have hc : isDigitByte c = true := by
        simp only [List.all_cons, Bool.and_eq_true] at hall
        exact hall.1
      have hsign : ¬ (c = '+' ∨ c = '-') := by
        rintro (h | h) <;> subst h <;> exact absurd hc (by decide)
      have hminus : ¬ (c = '-') := fun h => hsign (Or.inr h)
      have hplus : ¬ (c = '+') := fun h => hsign (Or.inl h)
      rw [goIntValue_cons]
      simp only [hplus, hminus, or_self, if_false, decide_False, Bool.false_eq_true, hall, ne_eq,
        reduceCtorEq, not_false_eq_true, and_self, if_true, hval]
      exact if_pos ⟨h1, h2⟩
  | negSucc m =>
    obtain ⟨hne, hall, hval⟩ := Nat_repr_spec (m + 1)
    have hdata : (Int.repr (Int.negSucc m)) = ⟨'-' :: (Nat.repr (m + 1)).data⟩ := by
      simp [Int.repr, String.ext_iff]
    rw [hdata, goIntValue_cons]
    simp only [true_or, or_true, if_true, decide_True, hne, hall, ne_eq, not_false_eq_true,
      and_self, hval]
    have hz : -((m + 1 : Nat) : Int) = Int.negSucc m := by
      simp [Int.negSucc_eq]
    rw [hz]
    exact if_pos ⟨h1, h2⟩

/-! ## Consequences of the closed form -/

theorem intErr_eq_none_iff (os : Environ) (k : String) :
    intErr os k = none ↔ (os k = none ∨ ∃ v, os k = some v ∧ (Atoi v).2 = none) := by
  unfold intErr
  cases os k with
  | none => simp
  | some v => simp

theorem getEnv_ne_empty_iff (os : Environ) (k : String) :
    getEnv os k "" ≠ "" ↔ ∃ v, os k = some v ∧ v ≠ "" := by
  unfold getEnv
  cases os k with
  | none => simp
  | some v => simp

/-- `NewEnv` returns either an error and no record, or a record and no error. -/
theorem NewEnv_shape (os : Environ) :
    (∃ e, NewEnv os = (none, some e)) ∨ (∃ cfg, NewEnv os = (some cfg, none)) := by
  rw [NewEnv_eq]
  cases List.findSome? (intErr os) intKeys with
  | some e => exact Or.inl ⟨e, rfl⟩
  | none =>
    by_cases h : getEnv os "DB_URI" "" = ""
    · exact Or.inl ⟨missingDbUri, by simp [h]⟩
    · exact Or.inr ⟨fields os, by simp [h]⟩

/-- `NewEnv` succeeds exactly when no integer key has an error and `DB_URI`
resolves to a non-empty string, and the record is then `fields os`. -/
theorem NewEnv_success_iff (os : Environ) (cfg : Env) :
    NewEnv os = (some cfg, none) ↔
      ((∀ k ∈ intKeys, intErr os k = none) ∧ getEnv os "DB_URI" "" ≠ "" ∧ cfg = fields os) := by
  rw [NewEnv_eq]
  cases hf : List.findSome? (intErr os) intKeys with
  | some e =>
    have hn : ¬ (∀ k ∈ intKeys, intErr os k = none) := by
      intro h
      rw [List.findSome?_eq_none_iff.mpr h] at hf
      exact absurd hf (by simp)
    simp [hn]
  | none =>
    have hy : ∀ k ∈ intKeys, intErr os k = none := List.findSome?_eq_none_iff.mp hf
    by_cases h : getEnv os "DB_URI" "" = ""
    · simp [h]
    · simp only [h, if_false, Prod.mk.injEq, Option.some.injEq, and_true, ne_eq,
        not_false_eq_true, true_and]
      constructor
      · intro h2; exact ⟨hy, h2.symm⟩
      · intro h2; exact h2.2.symm

/-- When `NewEnv` fails on an environment without integer errors, the error
is the missing-URI error. -/
theorem NewEnv_missing (os : Environ) (hints : ∀ k ∈ intKeys, intErr os k = none)
    (hdb : getEnv os "DB_URI" "" = "") : NewEnv os = (none, some missingDbUri) := by
  rw [NewEnv_eq, List.findSome?_eq_none_iff.mpr hints]
  simp [hdb]

/-- An error of `Atoi` is a `NumError` of function `Atoi` carrying the input. -/
theorem Atoi_err_form (v : String) (h : (Atoi v).2 ≠ none) :
    ∃ r kind, Atoi v = (r, some (GoError.numError ⟨"Atoi", v, kind⟩)) := by
  have hs := Atoi_spec v
  cases hg : goIntValue? v with
  | none => exact hs.2 hg
  | some z =>
    rw [hs.1 z hg] at h
    exact absurd rfl h

/-- On any list of keys: the first key with a rejected value is where the
search for the first error stops, and the keys before it have no error. -/
theorem findSome_firstBad (os : Environ) (l : List String) (K v : String)
    (h : l.findSome? (fun k =>
        match os k with
        | some v => if (Atoi v).2.isSome then some (k, v) else none
        | none => none) = some (K, v)) :
    os K = some v ∧ (Atoi v).2 ≠ none ∧ l.findSome? (intErr os) = (Atoi v).2 ∧
      ∃ pre post, l = pre ++ K :: post ∧ ∀ k ∈ pre, intErr os k = none := by
  induction l with
  | nil => simp at h
  | cons a l ih =>
    rw [List.findSome?_cons] at h ⊢
    cases hos : os a with
    | none =>
      have hi : intErr os a = none := by simp [intErr, hos]
      simp only [hos] at h
      obtain ⟨h1, h2, h3, pre, post, h4, h5⟩ := ih h
      refine ⟨h1, h2, by rw [hi]; exact h3, a :: pre, post, by rw [h4]; rfl, ?_⟩
      intro k hk
      rcases List.mem_cons.mp hk with rfl | hk
      · exact hi
      · exact h5 k hk
    | some w =>
      simp only [hos] at h
      by_cases hw : (Atoi w).2.isSome = true
      · simp only [hw, if_true, Option.some.injEq, Prod.mk.injEq] at h
        obtain ⟨rfl, rfl⟩ := h
        have hne : (Atoi w).2 ≠ none := by
          intro hn; rw [hn] at hw; simp at hw
        have hi : intErr os a = (Atoi w).2 := by simp [intErr, hos]
        refine ⟨hos, hne, ?_, [], l, rfl, by simp⟩
        rw [hi]
        cases hA : (Atoi w).2 with
        | none => exact absurd hA hne
        | some e => rfl
      · have hwn : (Atoi w).2 = none := by
          cases hA : (Atoi w).2 with
          | none => rfl
          | some e => rw [hA] at hw; simp at hw
        have hi : intErr os a = none := by simp [intErr, hos, hwn]
        simp only [hw, if_false] at h
        obtain ⟨h1, h2, h3, pre, post, h4, h5⟩ := ih h
        refine ⟨h1, h2, by rw [hi]; exact h3, a :: pre, post, by rw [h4]; rfl, ?_⟩
        intro k hk
        rcases List.mem_cons.mp hk with rfl | hk
        · exact hi
        · exact h5 k hk

/-- On any list of keys: when no key has a rejected value, no key has an
error, and conversely. -/
theorem findSome_firstBad_none (os : Environ) (l : List String) :
    l.findSome? (fun k =>
        match os k with
        | some v => if (Atoi v).2.isSome then some (k, v) else none
        | none => none) = none ↔ ∀ k ∈ l, intErr os k = none := by
  rw [List.findSome?_eq_none_iff]
  constructor
  · intro h k hk
    have := h k hk
    unfold intErr
    cases hos : os k with
    | none => rfl
    | some w =>
      simp only [hos] at this ⊢
      cases hA : (Atoi w).2 with
      | none => rfl
      | some e => simp [hA] at this
  · intro h k hk
    have := h k hk
    unfold intErr at this
    cases hos : os k with
    | none => rfl
    | some w =>
      simp only [hos] at this ⊢
      simp [this]

/-- The outcome of `NewEnv` when some integer variable is rejected: no record,
and the error `Atoi` reports for the first such variable. -/
theorem NewEnv_firstUnparsable (os : Environ) (K v : String)
    (h : firstUnparsable? os = some (K, v)) : NewEnv os = (none, (Atoi v).2) := by
  obtain ⟨_, h2, h3, _⟩ := findSome_firstBad os intKeys K v h
  rw [NewEnv_eq, h3]
  cases hA : (Atoi v).2 with
  | none => exact absurd hA h2
  | some e => rfl

/-! ## The accepted strings, as a grammar -/

/-- The reference reader `goIntValue?` gives `z` exactly on the strings that
split into an optional single sign and a non-empty run of ASCII decimal
digits whose signed value is `z` and lies in the signed 64-bit range. -/
theorem goIntValue_iff_grammar (v : String) (z : Int) :
    goIntValue? v = some z ↔ IsGoInt v z := by
  unfold IsGoInt
  obtain ⟨cs⟩ := v
  cases cs with
  | nil =>
    constructor
    · intro h
      simp [goIntValue?] at h
    · rintro ⟨sign, digits, h1, _, h3, _⟩
      have : digits = [] := by
        have h1b : sign ++ digits = [] := h1.symm
        exact (List.append_eq_nil.mp h1b).2
      exact absurd this h3
  | cons c cs =>
    rw [goIntValue_cons]
    by_cases hp : c = '+'
    · subst hp
      simp only [true_or, if_true, show decide (('+' : Char) = '-') = false from by decide,
        Bool.false_eq_true, if_false]
      constructor
      · intro h
        split_ifs at h with h1 h2
        · refine ⟨['+'], cs, rfl, Or.inr (Or.inl rfl), h1.1, ?_, ?_, ?_⟩
          · exact List.all_eq_true.mp h1.2
          · simp only [Option.some.injEq] at h
            rw [if_neg (by decide)]
            exact h.symm
          · simp only [Option.some.injEq] at h
            rw [← h]
            exact h2
      · rintro ⟨sign, digits, h1, h2, h3, h4, h5, h6⟩
        have hd : sign = ['+'] ∧ digits = cs := by
          rcases h2 with rfl | rfl | rfl
          · simp only [List.nil_append] at h1
            subst h1
            have := h4 '+' (List.mem_cons_self _ _)
            exact absurd this (by decide)
          · simp only [List.singleton_append, List.cons.injEq, true_and] at h1
            exact ⟨rfl, h1.symm⟩
          · simp only [List.singleton_append, List.cons.injEq] at h1
            exact absurd h1.1 (by decide)
        obtain ⟨rfl, rfl⟩ := hd
        rw [if_neg (by decide)] at h5
        subst h5
        rw [if_pos ⟨h3, List.all_eq_true.mpr h4⟩, if_pos h6]
    · by_cases hm : c = '-'
      · subst hm
        simp only [or_true, if_true, decide_True]
        constructor
        · intro h
          split_ifs at h with h1 h2
          · refine ⟨['-'], cs, rfl, Or.inr (Or.inr rfl), h1.1, ?_, ?_, ?_⟩
            · exact List.all_eq_true.mp h1.2
            · simp only [Option.some.injEq] at h
              rw [if_pos rfl]
              exact h.symm
            · simp only [Option.some.injEq] at h
              rw [← h]
              exact h2
        · rintro ⟨sign, digits, h1, h2, h3, h4, h5, h6⟩
          have hd : sign = ['-'] ∧ digits = cs := by
            rcases h2 with rfl | rfl | rfl
            · simp only [List.nil_append] at h1
              subst h1
              have := h4 '-' (List.mem_cons_self _ _)
              exact absurd this (by decide)
            · simp only [List.singleton_append, List.cons.injEq] at h1
              exact absurd h1.1 (by decide)
            · simp only [List.singleton_append, List.cons.injEq, true_and] at h1
              exact ⟨rfl, h1.symm⟩
          obtain ⟨rfl, rfl⟩ := hd
          rw [if_pos rfl] at h5
          subst h5
          rw [if_pos ⟨h3, List.all_eq_true.mpr h4⟩, if_pos h6]
      · simp only [hp, hm, or_self, if_false, decide_False, Bool.false_eq_true]
        constructor
        · intro h
          split_ifs at h with h1 h2
          · refine ⟨[], c :: cs, rfl, Or.inl rfl, h1.1, ?_, ?_, ?_⟩
            · exact List.all_eq_true.mp h1.2
            · simp only [Option.some.injEq] at h
              rw [if_neg (by decide)]
              exact h.symm
            · simp only [Option.some.injEq] at h
              rw [← h]
              exact h2
        · rintro ⟨sign, digits, h1, h2, h3, h4, h5, h6⟩
          have hd : sign = [] ∧ digits = c :: cs := by
            rcases h2 with rfl | rfl | rfl
            · simp only [List.nil_append] at h1
              exact ⟨rfl, h1.symm⟩
            · simp only [List.singleton_append, List.cons.injEq] at h1
              exact absurd h1.1 hp
            · simp only [List.singleton_append, List.cons.injEq] at h1
              exact absurd h1.1 hm
          obtain ⟨rfl, rfl⟩ := hd
          rw [if_neg (by decide)] at h5
          subst h5
          rw [if_pos ⟨h3, List.all_eq_true.mpr h4⟩, if_pos h6]

theorem not_isGoInt_of_none (v : String) (h : goIntValue? v = none) : ¬ ∃ z, IsGoInt v z := by
  rintro ⟨z, hz⟩
  rw [← goIntValue_iff_grammar, h] at hz
  exact absurd hz (by simp)

theorem goIntValue_none_of_not_isGoInt (v : String) (h : ¬ ∃ z, IsGoInt v z) :
    goIntValue? v = none := by
  cases hg : goIntValue? v with
  | none => rfl
  | some z => exact absurd ⟨z, (goIntValue_iff_grammar v z).mp hg⟩ h

/-! ## The overlay, and the outcome of a run in terms of the environment -/

theorem Atoi_of_isGoInt (v : String) (z : Int) (h : IsGoInt v z) : Atoi v = (z, none) :=
  (Atoi_spec v).1 z ((goIntValue_iff_grammar v z).mpr h)

theorem Atoi_ok_iff (v : String) : (Atoi v).2 = none ↔ ∃ z, IsGoInt v z := by
  constructor
  · intro h
    cases hg : goIntValue? v with
    | some z => exact ⟨z, (goIntValue_iff_grammar v z).mp hg⟩
    | none =>
      obtain ⟨r, k, hA⟩ := (Atoi_spec v).2 hg
      rw [hA] at h
      exact absurd h (by simp)
  · rintro ⟨z, hz⟩
    rw [Atoi_of_isGoInt v z hz]

theorem intErr_none_iff_isGoInt (os : Environ) (k : String) :
    intErr os k = none ↔ ∀ v, os k = some v → ∃ z, IsGoInt v z := by
  unfold intErr
  cases os k with
  | none => simp
  | some w =>
    simp only [Option.some.injEq, forall_eq']
    exact Atoi_ok_iff w

theorem getEnv_fieldOf (os : Environ) (key dflt : String) :
    StringFieldOf os key dflt (getEnv os key dflt) := by
  unfold StringFieldOf getEnv
  cases os key <;> rfl

theorem getEnvAsInt_fieldOf (os : Environ) (key : String) (dflt : Int)
    (h : intErr os key = none) : IntFieldOf os key dflt (getEnvAsInt os key dflt).1 := by
  unfold IntFieldOf getEnvAsInt
  unfold intErr at h
  cases hos : os key with
  | none => rfl
  | some v =>
    rw [hos] at h
    simp only at h ⊢
    obtain ⟨z, hz⟩ := (Atoi_ok_iff v).mp h
    rw [Atoi_of_isGoInt v z hz]
    exact hz

/-- The closed-form record has every field determined by the environment. -/
theorem fields_determined (os : Environ) (h : ∀ k ∈ intKeys, intErr os k = none) :
    DeterminedBy os (fields os) := by
  unfold DeterminedBy
  refine ⟨?_, ?_, ?_, ?_, ?_, ?_, ?_, ?_, ?_, ?_, ?_, ?_, ?_, ?_, ?_, ?_, ?_, ?_, ?_, ?_, ?_, ?_, ?_, ?_, ?_, ?_, ?_, ?_, ?_, ?_, ?_, ?_, ?_, ?_, ?_, ?_, ?_, ?_, ?_⟩
  all_goals first
    | exact getEnv_fieldOf os _ _
    | exact getEnvAsInt_fieldOf os _ _ (h _ (by simp [intKeys]))

/-- The outcome of `NewEnv` on an environment, in terms of the variables: the
`Atoi` error of a rejected integer variable; or the missing-URI error when
`DB_URI` is absent or empty; or a record with every field determined. -/
theorem NewEnv_outcome (os : Environ) :
    (∃ K v kind, K ∈ intKeys ∧ os K = some v ∧ (¬ ∃ z, IsGoInt v z) ∧
      NewEnv os = (none, some (GoError.numError ⟨"Atoi", v, kind⟩))) ∨
    ((os "DB_URI" = none ∨ os "DB_URI" = some "") ∧
      (∀ k ∈ intKeys, ∀ v, os k = some v → ∃ z, IsGoInt v z) ∧
      NewEnv os = (none, some (GoError.errorString
        "DB_URI is required but empty; set it in .env or environment"))) ∨
    (∃ cfg, (∃ v, os "DB_URI" = some v ∧ v ≠ "") ∧
      (∀ k ∈ intKeys, ∀ v, os k = some v → ∃ z, IsGoInt v z) ∧
      NewEnv os = (some cfg, none) ∧ DeterminedBy os cfg) := by
  cases hf : firstUnparsable? os with
  | some p =>
    obtain ⟨K, v⟩ := p
    obtain ⟨h1, h2, _, pre, post, h4, _⟩ := findSome_firstBad os intKeys K v hf
    obtain ⟨r, kind, hA⟩ := Atoi_err_form v h2
    refine Or.inl ⟨K, v, kind, by rw [h4]; simp, h1, fun hz => h2 ((Atoi_ok_iff v).mpr hz), ?_⟩
    rw [NewEnv_firstUnparsable os K v hf, hA]
  | none =>
    have hall : ∀ k ∈ intKeys, intErr os k = none := (findSome_firstBad_none os intKeys).mp hf
    have hall2 : ∀ k ∈ intKeys, ∀ v, os k = some v → ∃ z, IsGoInt v z := fun k hk =>
      (intErr_none_iff_isGoInt os k).mp (hall k hk)
    by_cases hdb : getEnv os "DB_URI" "" = ""
    · refine Or.inr (Or.inl ⟨?_, hall2, NewEnv_missing os hall hdb⟩)
      unfold getEnv at hdb
      cases hos : os "DB_URI" with
      | none => exact Or.inl rfl
      | some w =>
        rw [hos] at hdb
        simp only at hdb
        exact Or.inr (by rw [hdb])
    · exact Or.inr (Or.inr ⟨fields os, (getEnv_ne_empty_iff os "DB_URI").mp hdb, hall2,
        (NewEnv_success_iff os (fields os)).mpr ⟨hall, hdb, rfl⟩, fields_determined os hall⟩)

theorem godotenvLoad_idem (file : Option Environ) (E : Environ) :
    godotenvLoad file (godotenvLoad file E) = godotenvLoad file E := by
  cases file with
  | none => rfl
  | some F =>
    funext k
    simp only [godotenvLoad]
    cases E k with
    | some v => rfl
    | none =>
      simp only
      cases hF : F k with
      | none => rfl
      | some w =>
        simp only
        by_cases hs : setenvOk k w = true
        · simp [hs]
        · simp [hs]

theorem godotenvLoad_of_set (file : Option Environ) (E : Environ) (k v : String)
    (h : E k = some v) : godotenvLoad file E k = some v := by
  cases file with
  | none => exact h
  | some F => simp only [godotenvLoad, h]

/-- For a key `os.Setenv` accepts: the variable is set after the load exactly
when it was set before, with the same value, or it was not set and the file
gives it a value without a NUL byte. -/
theorem godotenvLoad_eq_some_iff (file : Option Environ) (E : Environ) (k v : String)
    (hk : keyOk k = true) :
    godotenvLoad file E k = some v ↔
      (E k = some v ∨ (E k = none ∧ ∃ F, file = some F ∧ F k = some v ∧ hasNul v = false)) := by
  cases file with
  | none => simp [godotenvLoad]
  | some F =>
    simp only [godotenvLoad, setenvOk, hk, Bool.true_and, Option.some.injEq, exists_eq_left',
      Bool.not_eq_true']
    cases hE : E k with
    | some w => simp
    | none =>
      simp only [false_or, true_and, reduceCtorEq]
      cases hF : F k with
      | none => simp
      | some w =>
        simp only [Option.some.injEq]
        by_cases hn : hasNul w = false
        · simp only [hn, if_true, Option.some.injEq]
          constructor
          · intro h; subst h; exact ⟨rfl, hn⟩
          · intro h; exact h.1
        · simp only [hn, if_false, reduceCtorEq, false_iff, not_and]
          intro h; subst h; exact hn

theorem godotenvLoad_eq_none_iff (file : Option Environ) (E : Environ) (k : String)
    (hk : keyOk k = true) :
    godotenvLoad file E k = none ↔
      (E k = none ∧
        (file = none ∨ ∃ F, file = some F ∧ (F k = none ∨ ∃ v, F k = some v ∧ hasNul v = true))) := by
  cases file with
  | none => simp [godotenvLoad]
  | some F =>
    simp only [godotenvLoad, setenvOk, hk, Bool.true_and, reduceCtorEq, Option.some.injEq,
      exists_eq_left', false_or]
    cases hE : E k with
    | some w => simp
    | none =>
      simp only [true_and]
      cases hF : F k with
      | none => simp
      | some w =>
        simp only [reduceCtorEq, Option.some.injEq, exists_eq_left', false_or]
        by_cases hn : hasNul w = true
        · simp [hn]
        · simp [hn]

theorem stringFieldFrom_of_load (file : Option Environ) (E : Environ) (key dflt field : String)
    (hk : keyOk key = true) (h : StringFieldOf (godotenvLoad file E) key dflt field) :
    StringFieldFrom file E key dflt field := by
  unfold StringFieldOf at h
  refine ⟨fun v hv => ?_, fun F v hf hE hF hn => ?_, fun hE hF => ?_⟩
  · rw [(godotenvLoad_eq_some_iff file E key v hk).mpr (Or.inl hv)] at h
    exact h
  · rw [(godotenvLoad_eq_some_iff file E key v hk).mpr (Or.inr ⟨hE, F, hf, hF, hn⟩)] at h
    exact h
  · rw [(godotenvLoad_eq_none_iff file E key hk).mpr ⟨hE, hF⟩] at h
    exact h

theorem intFieldFrom_of_load (file : Option Environ) (E : Environ) (key : String)
    (dflt field : Int) (hk : keyOk key = true)
    (h : IntFieldOf (godotenvLoad file E) key dflt field) :
    IntFieldFrom file E key dflt field := by
  unfold IntFieldOf at h
  refine ⟨fun v hv => ?_, fun F v hf hE hF hn => ?_, fun hE hF => ?_⟩
  · rw [(godotenvLoad_eq_some_iff file E key v hk).mpr (Or.inl hv)] at h
    exact h
  · rw [(godotenvLoad_eq_some_iff file E key v hk).mpr (Or.inr ⟨hE, F, hf, hF, hn⟩)] at h
    exact h
  · rw [(godotenvLoad_eq_none_iff file E key hk).mpr ⟨hE, hF⟩] at h
    exact h

/-- A record determined by the environment after the load is read from the
process environment, the file and the defaults, in that order. -/
theorem readFrom_of_determined (file : Option Environ) (E : Environ) (cfg : Env)
    (h : DeterminedBy (godotenvLoad file E) cfg) : ReadFrom file E cfg := by
  unfold DeterminedBy at h
  obtain ⟨h1, h2, h3, h4, h5, h6, h7, h8, h9, h10, h11, h12, h13, h14, h15, h16, h17, h18, h19, h20, h21, h22, h23, h24, h25, h26, h27, h28, h29, h30, h31, h32, h33, h34, h35, h36, h37, h38, h39⟩ := h
  unfold ReadFrom
  refine ⟨?_, ?_, ?_, ?_, ?_, ?_, ?_, ?_, ?_, ?_, ?_, ?_, ?_, ?_, ?_, ?_, ?_, ?_, ?_, ?_, ?_, ?_, ?_, ?_, ?_, ?_, ?_, ?_, ?_, ?_, ?_, ?_, ?_, ?_, ?_, ?_, ?_, ?_, ?_⟩
  all_goals first
    | (apply stringFieldFrom_of_load _ _ _ _ _ (by decide); assumption)
    | (apply intFieldFrom_of_load _ _ _ _ _ (by decide); assumption)

/-! ## The claims -/

/-- C1: on every environment on which `NewEnv` succeeds, each field whose key
is not set equals its declared default (the literals below; the empty string
for the string keys without another default); and with only
`DB_URI="mongodb://x"` set, `NewEnv` succeeds with every other field at its
default. -/
theorem C1_absent_keys_take_defaults (os : Environ) (cfg : Env)
    (h : NewEnv os = (some cfg, none)) :
    ((os "PORT" = none → cfg.Port = ":8080") ∧
     (os "APP_ENV" = none → cfg.AppEnv = "development") ∧
     (os "DB_URI" = none → cfg.DB_Uri = "") ∧
     (os "DB_NAME" = none → cfg.DB_Name = "") ∧
     (os "REFRESH_TOKEN_SECRET" = none → cfg.RTS = "") ∧
     (os "ACCESS_TOKEN_SECRET" = none → cfg.ATS = "") ∧
     (os "REFRESH_TOKEN_EXPIRE_HOURS" = none → cfg.RefTEHours = 168) ∧
     (os "ACCESS_TOKEN_EXPIRE_MINUTES" = none → cfg.AccTEMinutes = 15) ∧
     (os "CONTEXT_TIMEOUT_SECONDS" = none → cfg.CtxTSeconds = 10) ∧
     (os "PAGE" = none → cfg.Page = 1) ∧
     (os "PAGE_SIZE" = none → cfg.PageSize = 10) ∧
     (os "RECENCY" = none → cfg.Recency = "new") ∧
     (os "USER_COLLECTION" = none → cfg.UserCollection = "users") ∧
     (os "REFRESH_TOKEN_COLLECTION" = none → cfg.RefreshTokenCollection = "refresh_tokens") ∧
     (os "PASSWORD_RESET_TOKEN_COLLECTION" = none → cfg.PasswordResetCollection = "password_resets") ∧
     (os "PASSWORD_RESET_TOKEN_EXPIRE_MINUTES" = none → cfg.PasswordResetExpiry = 15) ∧
     (os "SMTP_HOST" = none → cfg.SMTPHost = "smtp.gmail.com") ∧
     (os "SMTP_PORT" = none → cfg.SMTPPort = 587) ∧
     (os "SMTP_FROM" = none → cfg.SMTPFrom = "") ∧
     (os "SMTP_USERNAME" = none → cfg.SMTPUsername = "") ∧
     (os "SMTP_PASSWORD" = none → cfg.SMTPPassword = "") ∧
     (os "RESET_URL" = none → cfg.ResetURL = "http://localhost:3000/reset-password") ∧
     (os "GEMINI_API_KEY" = none → cfg.GeminiAPIKey = "") ∧
     (os "GEMINI_MODEL_NAME" = none → cfg.GeminiModelName = "gemini-2.0-flash") ∧
     (os "IMAGEKIT_PRIVATE_KEY" = none → cfg.ImageKitPrivateKey = "") ∧
     (os "IMAGEKIT_PUBLIC_KEY" = none → cfg.ImageKitPublicKey = "") ∧
     (os "IMAGEKIT_URL_ENDPOINT" = none → cfg.ImageKitEndpoint = "") ∧
     (os "MY_SUPER_SECRET_SALT" = none → cfg.SecretSalt = "") ∧
     (os "OTP_COLLECTION" = none → cfg.OtpCollection = "otps") ∧
     (os "OTP_EXPIRE_MINUTES" = none → cfg.OtpExpireMinutes = 5) ∧
     (os "OTP_MAXIMUM_ATTEMPTS" = none → cfg.OtpMaximumAttempts = 3) ∧
     (os "REDIS_HOST" = none → cfg.RedisHost = "localhost") ∧
     (os "REDIS_PORT" = none → cfg.RedisPort = 6379) ∧
     (os "REDIS_PASSWORD" = none → cfg.RedisPassword = "") ∧
     (os "REDIS_DB" = none → cfg.RedisDB = 0) ∧
     (os "CACHE_EXPIRATION_SECONDS" = none → cfg.CacheExpirationSeconds = 3600) ∧
     (os "GOOGLE_CLIENT_ID" = none → cfg.GoogleClientID = "") ∧
     (os "GOOGLE_CLIENT_SECRET" = none → cfg.GoogleClientSecret = "") ∧
     (os "GOOGLE_REDIRECT_URL" = none → cfg.GoogleRedirectURL = "")) ∧
    NewEnv (envOfList [("DB_URI", "mongodb://x")]) = (some (defaultsWith "mongodb://x"), none) := by
  obtain ⟨_, _, rfl⟩ := (NewEnv_success_iff os cfg).mp h
  refine ⟨?_, by decide⟩
  refine ⟨?_, ?_, ?_, ?_, ?_, ?_, ?_, ?_, ?_, ?_, ?_, ?_, ?_, ?_, ?_, ?_, ?_, ?_, ?_, ?_, ?_, ?_, ?_, ?_, ?_, ?_, ?_, ?_, ?_, ?_, ?_, ?_, ?_, ?_, ?_, ?_, ?_, ?_, ?_⟩
  all_goals
    intro ha
    simp only [fields, getEnv, getEnvAsInt, ha]
  rfl

/-- C1, at the environment with only `DB_URI` set: `PORT` and
`OTP_MAXIMUM_ATTEMPTS` are absent and their fields hold the defaults. -/
theorem C1_absent_keys_take_defaults_witness :
    NewEnv (envOfList [("DB_URI", "mongodb://x")]) = (some (defaultsWith "mongodb://x"), none) ∧
    (defaultsWith "mongodb://x").Port = ":8080" ∧
    (defaultsWith "mongodb://x").OtpMaximumAttempts = 3 :=
  have hc := (C1_absent_keys_take_defaults (envOfList [("DB_URI", "mongodb://x")])
    (defaultsWith "mongodb://x") (by decide)).1
  ⟨by decide, hc.1 (by decide), by decide⟩


theorem getEnvAsInt_decimal (os : Environ) (key : String) (fallback n : Int)
    (h1 : -(2 : Int) ^ 63 ≤ n) (h2 : n < (2 : Int) ^ 63) (hos : os key = some (decimal n)) :
    getEnvAsInt os key fallback = (n, none) := by
  unfold getEnvAsInt
  rw [hos]
  simp only
  rw [(Atoi_spec (decimal n)).1 n (goIntValue_decimal n h1 h2)]

/-- C2: on every environment on which `NewEnv` succeeds, each string field
whose key is set equals the variable's value unchanged (the empty string
included); each integer field whose key is set to the decimal rendering of an
integer `n` of the signed 64-bit range equals `n`; and each field depends on
its own key only: two successful runs on environments that agree on a key
agree on that key's field. -/
theorem C2_present_keys_are_read (os : Environ) (cfg : Env)
    (h : NewEnv os = (some cfg, none)) :
    ((∀ v, os "PORT" = some v → cfg.Port = v) ∧
     (∀ v, os "APP_ENV" = some v → cfg.AppEnv = v) ∧
     (∀ v, os "DB_URI" = some v → cfg.DB_Uri = v) ∧
     (∀ v, os "DB_NAME" = some v → cfg.DB_Name = v) ∧
     (∀ v, os "REFRESH_TOKEN_SECRET" = some v → cfg.RTS = v) ∧
     (∀ v, os "ACCESS_TOKEN_SECRET" = some v → cfg.ATS = v) ∧
     (∀ v, os "RECENCY" = some v → cfg.Recency = v) ∧
     (∀ v, os "USER_COLLECTION" = some v → cfg.UserCollection = v) ∧
     (∀ v, os "REFRESH_TOKEN_COLLECTION" = some v → cfg.RefreshTokenCollection = v) ∧
     (∀ v, os "PASSWORD_RESET_TOKEN_COLLECTION" = some v → cfg.PasswordResetCollection = v) ∧
     (∀ v, os "SMTP_HOST" = some v → cfg.SMTPHost = v) ∧
     (∀ v, os "SMTP_FROM" = some v → cfg.SMTPFrom = v) ∧
     (∀ v, os "SMTP_USERNAME" = some v → cfg.SMTPUsername = v) ∧
     (∀ v, os "SMTP_PASSWORD" = some v → cfg.SMTPPassword = v) ∧
     (∀ v, os "RESET_URL" = some v → cfg.ResetURL = v) ∧
     (∀ v, os "GEMINI_API_KEY" = some v → cfg.GeminiAPIKey = v) ∧
     (∀ v, os "GEMINI_MODEL_NAME" = some v → cfg.GeminiModelName = v) ∧
     (∀ v, os "IMAGEKIT_PRIVATE_KEY" = some v → cfg.ImageKitPrivateKey = v) ∧
     (∀ v, os "IMAGEKIT_PUBLIC_KEY" = some v → cfg.ImageKitPublicKey = v) ∧
     (∀ v, os "IMAGEKIT_URL_ENDPOINT" = some v → cfg.ImageKitEndpoint = v) ∧
     (∀ v, os "MY_SUPER_SECRET_SALT" = some v → cfg.SecretSalt = v) ∧
     (∀ v, os "OTP_COLLECTION" = some v → cfg.OtpCollection = v) ∧
     (∀ v, os "REDIS_HOST" = some v → cfg.RedisHost = v) ∧
     (∀ v, os "REDIS_PASSWORD" = some v → cfg.RedisPassword = v) ∧
     (∀ v, os "GOOGLE_CLIENT_ID" = some v → cfg.GoogleClientID = v) ∧
     (∀ v, os "GOOGLE_CLIENT_SECRET" = some v → cfg.GoogleClientSecret = v) ∧
     (∀ v, os "GOOGLE_REDIRECT_URL" = some v → cfg.GoogleRedirectURL = v)) ∧
    ((∀ n : Int, -(2 : Int) ^ 63 ≤ n → n < (2 : Int) ^ 63 →
        os "REFRESH_TOKEN_EXPIRE_HOURS" = some (decimal n) → cfg.RefTEHours = n) ∧
     (∀ n : Int, -(2 : Int) ^ 63 ≤ n → n < (2 : Int) ^ 63 →
        os "ACCESS_TOKEN_EXPIRE_MINUTES" = some (decimal n) → cfg.AccTEMinutes = n) ∧
     (∀ n : Int, -(2 : Int) ^ 63 ≤ n → n < (2 : Int) ^ 63 →
        os "CONTEXT_TIMEOUT_SECONDS" = some (decimal n) → cfg.CtxTSeconds = n) ∧
     (∀ n : Int, -(2 : Int) ^ 63 ≤ n → n < (2 : Int) ^ 63 →
        os "PAGE" = some (decimal n) → cfg.Page = n) ∧
     (∀ n : Int, -(2 : Int) ^ 63 ≤ n → n < (2 : Int) ^ 63 →
        os "PAGE_SIZE" = some (decimal n) → cfg.PageSize = n) ∧
     (∀ n : Int, -(2 : Int) ^ 63 ≤ n → n < (2 : Int) ^ 63 →
        os "PASSWORD_RESET_TOKEN_EXPIRE_MINUTES" = some (decimal n) → cfg.PasswordResetExpiry = n) ∧
     (∀ n : Int, -(2 : Int) ^ 63 ≤ n → n < (2 : Int) ^ 63 →
        os "SMTP_PORT" = some (decimal n) → cfg.SMTPPort = n) ∧
     (∀ n : Int, -(2 : Int) ^ 63 ≤ n → n < (2 : Int) ^ 63 →
        os "OTP_EXPIRE_MINUTES" = some (decimal n) → cfg.OtpExpireMinutes = n) ∧
     (∀ n : Int, -(2 : Int) ^ 63 ≤ n → n < (2 : Int) ^ 63 →
        os "OTP_MAXIMUM_ATTEMPTS" = some (decimal n) → cfg.OtpMaximumAttempts = n) ∧
     (∀ n : Int, -(2 : Int) ^ 63 ≤ n → n < (2 : Int) ^ 63 →
        os "REDIS_PORT" = some (decimal n) → cfg.RedisPort = n) ∧
     (∀ n : Int, -(2 : Int) ^ 63 ≤ n → n < (2 : Int) ^ 63 →
        os "REDIS_DB" = some (decimal n) → cfg.RedisDB = n) ∧
     (∀ n : Int, -(2 : Int) ^ 63 ≤ n → n < (2 : Int) ^ 63 →
        os "CACHE_EXPIRATION_SECONDS" = some (decimal n) → cfg.CacheExpirationSeconds = n)) ∧
    (∀ (os2 : Environ) (cfg2 : Env), NewEnv os2 = (some cfg2, none) →
      ((os "PORT" = os2 "PORT" → cfg.Port = cfg2.Port) ∧
       (os "APP_ENV" = os2 "APP_ENV" → cfg.AppEnv = cfg2.AppEnv) ∧
       (os "DB_URI" = os2 "DB_URI" → cfg.DB_Uri = cfg2.DB_Uri) ∧
       (os "DB_NAME" = os2 "DB_NAME" → cfg.DB_Name = cfg2.DB_Name) ∧
       (os "REFRESH_TOKEN_SECRET" = os2 "REFRESH_TOKEN_SECRET" → cfg.RTS = cfg2.RTS) ∧
       (os "ACCESS_TOKEN_SECRET" = os2 "ACCESS_TOKEN_SECRET" → cfg.ATS = cfg2.ATS) ∧
       (os "REFRESH_TOKEN_EXPIRE_HOURS" = os2 "REFRESH_TOKEN_EXPIRE_HOURS" → cfg.RefTEHours = cfg2.RefTEHours) ∧
       (os "ACCESS_TOKEN_EXPIRE_MINUTES" = os2 "ACCESS_TOKEN_EXPIRE_MINUTES" → cfg.AccTEMinutes = cfg2.AccTEMinutes) ∧
       (os "CONTEXT_TIMEOUT_SECONDS" = os2 "CONTEXT_TIMEOUT_SECONDS" → cfg.CtxTSeconds = cfg2.CtxTSeconds) ∧
       (os "PAGE" = os2 "PAGE" → cfg.Page = cfg2.Page) ∧
       (os "PAGE_SIZE" = os2 "PAGE_SIZE" → cfg.PageSize = cfg2.PageSize) ∧
       (os "RECENCY" = os2 "RECENCY" → cfg.Recency = cfg2.Recency) ∧
       (os "USER_COLLECTION" = os2 "USER_COLLECTION" → cfg.UserCollection = cfg2.UserCollection) ∧
       (os "REFRESH_TOKEN_COLLECTION" = os2 "REFRESH_TOKEN_COLLECTION" → cfg.RefreshTokenCollection = cfg2.RefreshTokenCollection) ∧
       (os "PASSWORD_RESET_TOKEN_COLLECTION" = os2 "PASSWORD_RESET_TOKEN_COLLECTION" → cfg.PasswordResetCollection = cfg2.PasswordResetCollection) ∧
       (os "PASSWORD_RESET_TOKEN_EXPIRE_MINUTES" = os2 "PASSWORD_RESET_TOKEN_EXPIRE_MINUTES" → cfg.PasswordResetExpiry = cfg2.PasswordResetExpiry) ∧
       (os "SMTP_HOST" = os2 "SMTP_HOST" → cfg.SMTPHost = cfg2.SMTPHost) ∧
       (os "SMTP_PORT" = os2 "SMTP_PORT" → cfg.SMTPPort = cfg2.SMTPPort) ∧
       (os "SMTP_FROM" = os2 "SMTP_FROM" → cfg.SMTPFrom = cfg2.SMTPFrom) ∧
       (os "SMTP_USERNAME" = os2 "SMTP_USERNAME" → cfg.SMTPUsername = cfg2.SMTPUsername) ∧
       (os "SMTP_PASSWORD" = os2 "SMTP_PASSWORD" → cfg.SMTPPassword = cfg2.SMTPPassword) ∧
       (os "RESET_URL" = os2 "RESET_URL" → cfg.ResetURL = cfg2.ResetURL) ∧
       (os "GEMINI_API_KEY" = os2 "GEMINI_API_KEY" → cfg.GeminiAPIKey = cfg2.GeminiAPIKey) ∧
       (os "GEMINI_MODEL_NAME" = os2 "GEMINI_MODEL_NAME" → cfg.GeminiModelName = cfg2.GeminiModelName) ∧
       (os "IMAGEKIT_PRIVATE_KEY" = os2 "IMAGEKIT_PRIVATE_KEY" → cfg.ImageKitPrivateKey = cfg2.ImageKitPrivateKey) ∧
       (os "IMAGEKIT_PUBLIC_KEY" = os2 "IMAGEKIT_PUBLIC_KEY" → cfg.ImageKitPublicKey = cfg2.ImageKitPublicKey) ∧
       (os "IMAGEKIT_URL_ENDPOINT" = os2 "IMAGEKIT_URL_ENDPOINT" → cfg.ImageKitEndpoint = cfg2.ImageKitEndpoint) ∧
       (os "MY_SUPER_SECRET_SALT" = os2 "MY_SUPER_SECRET_SALT" → cfg.SecretSalt = cfg2.SecretSalt) ∧
       (os "OTP_COLLECTION" = os2 "OTP_COLLECTION" → cfg.OtpCollection = cfg2.OtpCollection) ∧
       (os "OTP_EXPIRE_MINUTES" = os2 "OTP_EXPIRE_MINUTES" → cfg.OtpExpireMinutes = cfg2.OtpExpireMinutes) ∧
       (os "OTP_MAXIMUM_ATTEMPTS" = os2 "OTP_MAXIMUM_ATTEMPTS" → cfg.OtpMaximumAttempts = cfg2.OtpMaximumAttempts) ∧
       (os "REDIS_HOST" = os2 "REDIS_HOST" → cfg.RedisHost = cfg2.RedisHost) ∧
       (os "REDIS_PORT" = os2 "REDIS_PORT" → cfg.RedisPort = cfg2.RedisPort) ∧
       (os "REDIS_PASSWORD" = os2 "REDIS_PASSWORD" → cfg.RedisPassword = cfg2.RedisPassword) ∧
       (os "REDIS_DB" = os2 "REDIS_DB" → cfg.RedisDB = cfg2.RedisDB) ∧
       (os "CACHE_EXPIRATION_SECONDS" = os2 "CACHE_EXPIRATION_SECONDS" → cfg.CacheExpirationSeconds = cfg2.CacheExpirationSeconds) ∧
       (os "GOOGLE_CLIENT_ID" = os2 "GOOGLE_CLIENT_ID" → cfg.GoogleClientID = cfg2.GoogleClientID) ∧
       (os "GOOGLE_CLIENT_SECRET" = os2 "GOOGLE_CLIENT_SECRET" → cfg.GoogleClientSecret = cfg2.GoogleClientSecret) ∧
       (os "GOOGLE_REDIRECT_URL" = os2 "GOOGLE_REDIRECT_URL" → cfg.GoogleRedirectURL = cfg2.GoogleRedirectURL))) := by
  obtain ⟨_, _, rfl⟩ := (NewEnv_success_iff os cfg).mp h
  refine ⟨⟨?_, ?_, ?_, ?_, ?_, ?_, ?_, ?_, ?_, ?_, ?_, ?_, ?_, ?_, ?_, ?_, ?_, ?_, ?_, ?_, ?_, ?_, ?_, ?_, ?_, ?_, ?_⟩, ⟨?_, ?_, ?_, ?_, ?_, ?_, ?_, ?_, ?_, ?_, ?_, ?_⟩, ?own⟩
  case own =>
    intro os2 cfg2 h2
    obtain ⟨_, _, rfl⟩ := (NewEnv_success_iff os2 cfg2).mp h2
    refine ⟨?_, ?_, ?_, ?_, ?_, ?_, ?_, ?_, ?_, ?_, ?_, ?_, ?_, ?_, ?_, ?_, ?_, ?_, ?_, ?_, ?_, ?_, ?_, ?_, ?_, ?_, ?_, ?_, ?_, ?_, ?_, ?_, ?_, ?_, ?_, ?_, ?_, ?_, ?_⟩
    all_goals
      intro he
      simp only [fields, getEnv, getEnvAsInt, he]
  all_goals first
    | (intro n h1 h2 hv
       simp only [fields]
       rw [getEnvAsInt_decimal os _ _ n h1 h2 hv])
    | (intro v hv
       simp only [fields, getEnv, hv])

/-- C2, at an environment with `PORT` set to the empty string and `PAGE` set
to the decimal rendering of -7. -/
theorem C2_present_keys_are_read_witness :
    NewEnv (envOfList [("DB_URI", "mongodb://x"), ("PORT", ""), ("PAGE", decimal (-7))])
      = (some { defaultsWith "mongodb://x" with Port := "", Page := -7 }, none) ∧
    ({ defaultsWith "mongodb://x" with Port := "", Page := -7 } : Env).Port = "" :=
  ⟨by decide,
   (C2_present_keys_are_read
      (envOfList [("DB_URI", "mongodb://x"), ("PORT", ""), ("PAGE", decimal (-7))])
      { defaultsWith "mongodb://x" with Port := "", Page := -7 } (by decide)).1.1 ""
      (by decide)⟩


/-- C3: when every integer-typed key is absent or set to a value that `Atoi`
accepts, and `DB_URI` is absent or set to the empty string, `NewEnv` returns
no record and the error with the message
"DB_URI is required but empty; set it in .env or environment". -/
theorem C3_missing_db_uri (os : Environ)
    (hints : ∀ k ∈ intKeys, os k = none ∨ ∃ v, os k = some v ∧ (Atoi v).2 = none)
    (hdb : os "DB_URI" = none ∨ os "DB_URI" = some "") :
    NewEnv os =
      (none, some (GoError.errorString
        "DB_URI is required but empty; set it in .env or environment")) := by
  have h1 : ∀ k ∈ intKeys, intErr os k = none := fun k hk =>
    (intErr_eq_none_iff os k).mpr (hints k hk)
  have h2 : getEnv os "DB_URI" "" = "" := by
    unfold getEnv
    rcases hdb with h | h <;> rw [h]
  exact NewEnv_missing os h1 h2

/-- C3, at the environment in which `DB_URI` is set to the empty string and
`PAGE` to "2". -/
theorem C3_missing_db_uri_witness :
    NewEnv (envOfList [("DB_URI", ""), ("PAGE", "2")]) =
      (none, some (GoError.errorString
        "DB_URI is required but empty; set it in .env or environment")) :=
  C3_missing_db_uri (envOfList [("DB_URI", ""), ("PAGE", "2")])
    (by decide) (by decide)


/-- C4: `NewEnv` succeeds (returns a record and no error) if and only if
`DB_URI` is set to a non-empty value and every one of the twelve integer-typed
keys is absent or set to a value that `Atoi` accepts; hence success is the
same on two environments that agree on `DB_URI` and on those twelve keys,
whatever the other variables (secrets, API keys, `APP_ENV`, ...) are. -/
theorem C4_success_iff (os : Environ) :
    ((∃ cfg, NewEnv os = (some cfg, none)) ↔
      ((∃ v, os "DB_URI" = some v ∧ v ≠ "") ∧
        ∀ k ∈ intKeys, os k = none ∨ ∃ v, os k = some v ∧ (Atoi v).2 = none)) ∧
    (∀ os2 : Environ, os2 "DB_URI" = os "DB_URI" → (∀ k ∈ intKeys, os2 k = os k) →
      ((∃ cfg, NewEnv os2 = (some cfg, none)) ↔ ∃ cfg, NewEnv os = (some cfg, none))) := by
  have key : ∀ o : Environ, (∃ cfg, NewEnv o = (some cfg, none)) ↔
      ((∃ v, o "DB_URI" = some v ∧ v ≠ "") ∧
        ∀ k ∈ intKeys, o k = none ∨ ∃ v, o k = some v ∧ (Atoi v).2 = none) := by
    intro o
    constructor
    · rintro ⟨cfg, hc⟩
      obtain ⟨h1, h2, _⟩ := (NewEnv_success_iff o cfg).mp hc
      exact ⟨(getEnv_ne_empty_iff o "DB_URI").mp h2,
        fun k hk => (intErr_eq_none_iff o k).mp (h1 k hk)⟩
    · rintro ⟨h2, h1⟩
      exact ⟨fields o, (NewEnv_success_iff o (fields o)).mpr
        ⟨fun k hk => (intErr_eq_none_iff o k).mpr (h1 k hk),
         (getEnv_ne_empty_iff o "DB_URI").mpr h2, rfl⟩⟩
  refine ⟨key os, fun os2 hdb hk => ?_⟩
  rw [key os2, key os, hdb]
  constructor
  · rintro ⟨h1, h2⟩
    exact ⟨h1, fun k hkm => by rw [← hk k hkm]; exact h2 k hkm⟩
  · rintro ⟨h1, h2⟩
    exact ⟨h1, fun k hkm => by rw [hk k hkm]; exact h2 k hkm⟩

/-- C4, at two environments that agree on `DB_URI` and the integer keys and
differ in `APP_ENV` and a secret: both succeed. -/
theorem C4_success_iff_witness :
    (∃ cfg, NewEnv (envOfList [("DB_URI", "mongodb://x")]) = (some cfg, none)) ∧
    (∃ cfg, NewEnv (envOfList [("APP_ENV", "production"), ("DB_URI", "mongodb://x"),
      ("ACCESS_TOKEN_SECRET", "s3cret")]) = (some cfg, none)) :=
  have h := C4_success_iff (envOfList [("DB_URI", "mongodb://x")])
  have h1 : ∃ cfg, NewEnv (envOfList [("DB_URI", "mongodb://x")]) = (some cfg, none) :=
    h.1.mpr ⟨⟨"mongodb://x", by decide, by decide⟩, by decide⟩
  ⟨h1, (h.2 (envOfList [("APP_ENV", "production"), ("DB_URI", "mongodb://x"),
      ("ACCESS_TOKEN_SECRET", "s3cret")]) (by decide) (by decide)).mpr h1⟩


/-- C5 as stated does not hold: the error `NewEnv` returns for an unparsable
integer variable is the error of `strconv.Atoi`, which carries the raw value
but not the key.  With `REFRESH_TOKEN_EXPIRE_HOURS="not-a-number"` in one
environment and `PAGE="not-a-number"` in another, the first unparsable keys
differ and the two errors are equal, so no reading of the error gives back
the key. -/
theorem C5_error_does_not_name_key :
    firstUnparsable? (envOfList [("DB_URI", "mongodb://x"),
        ("REFRESH_TOKEN_EXPIRE_HOURS", "not-a-number")])
      = some ("REFRESH_TOKEN_EXPIRE_HOURS", "not-a-number") ∧
    firstUnparsable? (envOfList [("DB_URI", "mongodb://x"), ("PAGE", "not-a-number")])
      = some ("PAGE", "not-a-number") ∧
    NewEnv (envOfList [("DB_URI", "mongodb://x"),
        ("REFRESH_TOKEN_EXPIRE_HOURS", "not-a-number")])
      = (none, some (GoError.numError ⟨"Atoi", "not-a-number", NumErrKind.ErrSyntax⟩)) ∧
    NewEnv (envOfList [("DB_URI", "mongodb://x"), ("PAGE", "not-a-number")])
      = (none, some (GoError.numError ⟨"Atoi", "not-a-number", NumErrKind.ErrSyntax⟩)) ∧
    ¬ ∃ keyOf : GoError → String, ∀ (os : Environ) (K v : String),
        firstUnparsable? os = some (K, v) →
          ∃ e, NewEnv os = (none, some e) ∧ keyOf e = K := by
  have hA : firstUnparsable? (envOfList [("DB_URI", "mongodb://x"),
        ("REFRESH_TOKEN_EXPIRE_HOURS", "not-a-number")])
      = some ("REFRESH_TOKEN_EXPIRE_HOURS", "not-a-number") := by decide
  have hB : firstUnparsable? (envOfList [("DB_URI", "mongodb://x"), ("PAGE", "not-a-number")])
      = some ("PAGE", "not-a-number") := by decide
  have nA : NewEnv (envOfList [("DB_URI", "mongodb://x"),
        ("REFRESH_TOKEN_EXPIRE_HOURS", "not-a-number")])
      = (none, some (GoError.numError ⟨"Atoi", "not-a-number", NumErrKind.ErrSyntax⟩)) := by
    decide
  have nB : NewEnv (envOfList [("DB_URI", "mongodb://x"), ("PAGE", "not-a-number")])
      = (none, some (GoError.numError ⟨"Atoi", "not-a-number", NumErrKind.ErrSyntax⟩)) := by
    decide
  refine ⟨hA, hB, nA, nB, ?_⟩
  rintro ⟨keyOf, hk⟩
  obtain ⟨e1, h1, k1⟩ := hk _ _ _ hA
  obtain ⟨e2, h2, k2⟩ := hk _ _ _ hB
  rw [nA] at h1
  rw [nB] at h2
  have he1 : e1 = GoError.numError ⟨"Atoi", "not-a-number", NumErrKind.ErrSyntax⟩ := by
    simpa using h1.symm
  have he2 : e2 = GoError.numError ⟨"Atoi", "not-a-number", NumErrKind.ErrSyntax⟩ := by
    simpa using h2.symm
  rw [he1] at k1
  rw [he2] at k2
  have : ("REFRESH_TOKEN_EXPIRE_HOURS" : String) = "PAGE" := k1.symm.trans k2
  exact absurd this (by decide)

/-- C5, amended: when `K` is the first integer-typed key, in reading order,
whose variable is set to a value `v` that `Atoi` rejects, `NewEnv` returns no
record and the `strconv.NumError` of function `Atoi` that carries the raw
value `v` and the reason (syntax or range); the error does not carry `K`. -/
theorem C5_invalid_integer_error (os : Environ) (K v : String)
    (h : firstUnparsable? os = some (K, v)) :
    K ∈ intKeys ∧ os K = some v ∧
      ∃ kind, NewEnv os = (none, some (GoError.numError ⟨"Atoi", v, kind⟩)) := by
  obtain ⟨h1, h2, _, pre, post, h4, _⟩ := findSome_firstBad os intKeys K v h
  refine ⟨by rw [h4]; simp, h1, ?_⟩
  obtain ⟨r, kind, hA⟩ := Atoi_err_form v h2
  refine ⟨kind, ?_⟩
  rw [NewEnv_firstUnparsable os K v h, hA]

/-- C5 amended, at `DB_URI="mongodb://x"`,
`REFRESH_TOKEN_EXPIRE_HOURS="not-a-number"`. -/
theorem C5_invalid_integer_error_witness :
    firstUnparsable? (envOfList [("DB_URI", "mongodb://x"),
        ("REFRESH_TOKEN_EXPIRE_HOURS", "not-a-number")])
      = some ("REFRESH_TOKEN_EXPIRE_HOURS", "not-a-number") ∧
    ∃ kind, NewEnv (envOfList [("DB_URI", "mongodb://x"),
        ("REFRESH_TOKEN_EXPIRE_HOURS", "not-a-number")])
      = (none, some (GoError.numError ⟨"Atoi", "not-a-number", kind⟩)) :=
  ⟨by decide,
   (C5_invalid_integer_error (envOfList [("DB_URI", "mongodb://x"),
        ("REFRESH_TOKEN_EXPIRE_HOURS", "not-a-number")])
      "REFRESH_TOKEN_EXPIRE_HOURS" "not-a-number" (by decide)).2.2⟩

/-- C6: when some integer-typed variable is set to a value that `Atoi`
rejects, there is a first such key `K` in the reading order `intKeys` (every
key before it is absent or accepted), and `NewEnv` returns no record and the
error `Atoi` reports for the value of `K`; that error is a `NumError`, never
the missing-`DB_URI` error, whether or not `DB_URI` is set. -/
theorem C6_error_precedence (os : Environ)
    (hbad : ∃ k ∈ intKeys, ∃ v, os k = some v ∧ (Atoi v).2 ≠ none) :
    ∃ (K v : String) (pre post : List String) (ne : NumError),
      intKeys = pre ++ K :: post ∧
      (∀ k ∈ pre, os k = none ∨ ∃ w, os k = some w ∧ (Atoi w).2 = none) ∧
      os K = some v ∧ (Atoi v).2 = some (GoError.numError ne) ∧
      NewEnv os = (none, some (GoError.numError ne)) ∧
      (NewEnv os).2 ≠ some (GoError.errorString "DB_URI is required but empty; set it in .env or environment") := by
  cases hf : firstUnparsable? os with
  | none =>
    obtain ⟨k, hk, v, hv, hA⟩ := hbad
    have := (findSome_firstBad_none os intKeys).mp hf k hk
    rw [intErr, hv] at this
    exact absurd this hA
  | some p =>
    obtain ⟨K, v⟩ := p
    obtain ⟨h1, h2, _, pre, post, h4, h5⟩ := findSome_firstBad os intKeys K v hf
    obtain ⟨r, kind, hA⟩ := Atoi_err_form v h2
    have hN := NewEnv_firstUnparsable os K v hf
    rw [hA] at hN
    refine ⟨K, v, pre, post, ⟨"Atoi", v, kind⟩, h4,
      fun k hk => (intErr_eq_none_iff os k).mp (h5 k hk), h1, by rw [hA], hN, ?_⟩
    rw [hN]
    simp

/-- C6, at an environment without `DB_URI` in which `SMTP_PORT` and `PAGE`
are both unparsable: the error is the one for `PAGE`, which is read first. -/
theorem C6_error_precedence_witness :
    NewEnv (envOfList [("SMTP_PORT", "y"), ("PAGE", "x")])
      = (none, some (GoError.numError ⟨"Atoi", "x", NumErrKind.ErrSyntax⟩)) ∧
    ∃ (K v : String) (pre post : List String) (ne : NumError),
      intKeys = pre ++ K :: post ∧
      (∀ k ∈ pre, envOfList [("SMTP_PORT", "y"), ("PAGE", "x")] k = none ∨
        ∃ w, envOfList [("SMTP_PORT", "y"), ("PAGE", "x")] k = some w ∧ (Atoi w).2 = none) ∧
      envOfList [("SMTP_PORT", "y"), ("PAGE", "x")] K = some v ∧
      (Atoi v).2 = some (GoError.numError ne) ∧
      NewEnv (envOfList [("SMTP_PORT", "y"), ("PAGE", "x")])
        = (none, some (GoError.numError ne)) ∧
      (NewEnv (envOfList [("SMTP_PORT", "y"), ("PAGE", "x")])).2
        ≠ some (GoError.errorString "DB_URI is required but empty; set it in .env or environment") :=
  ⟨by decide,
   C6_error_precedence (envOfList [("SMTP_PORT", "y"), ("PAGE", "x")])
     ⟨"SMTP_PORT", by decide, "y", by decide, by decide⟩⟩

/-- C7: two runs of the loader in one process, on the same dotenv content.
The first run, started on the process environment `E`, reads the snapshot
`os1` (the environment it leaves behind); the second run starts on `os1`.
Both runs return the same pair and leave the same environment, and that
outcome is fixed by the snapshot: either both fail with the `Atoi` error of an
integer variable whose value is no integer, or both fail with the
missing-`DB_URI` error (`DB_URI` absent or empty, every integer variable
accepted), or both succeed with one record in which every field is the
snapshot's value for the field's own key (parsed, for an integer field) or
the declared default. -/
theorem C7_deterministic (file : Option Environ) (E os1 : Environ)
    (h1 : (NewEnvProcess file E).2 = os1) :
    NewEnvProcess file os1 = NewEnvProcess file E ∧
    ((∃ K v kind, K ∈ intKeys ∧ os1 K = some v ∧ (¬ ∃ z, IsGoInt v z) ∧
        (NewEnvProcess file E).1 = (none, some (GoError.numError ⟨"Atoi", v, kind⟩)) ∧
        (NewEnvProcess file os1).1 = (none, some (GoError.numError ⟨"Atoi", v, kind⟩))) ∨
     ((os1 "DB_URI" = none ∨ os1 "DB_URI" = some "") ∧
        (∀ k ∈ intKeys, ∀ v, os1 k = some v → ∃ z, IsGoInt v z) ∧
        (NewEnvProcess file E).1 = (none, some (GoError.errorString
          "DB_URI is required but empty; set it in .env or environment")) ∧
        (NewEnvProcess file os1).1 = (none, some (GoError.errorString
          "DB_URI is required but empty; set it in .env or environment"))) ∨
     (∃ cfg, (∃ v, os1 "DB_URI" = some v ∧ v ≠ "") ∧
        (∀ k ∈ intKeys, ∀ v, os1 k = some v → ∃ z, IsGoInt v z) ∧
        (NewEnvProcess file E).1 = (some cfg, none) ∧
        (NewEnvProcess file os1).1 = (some cfg, none) ∧
        DeterminedBy os1 cfg)) := by
  have hos : godotenvLoad file E = os1 := h1
  have hidem : godotenvLoad file os1 = os1 := by
    rw [← hos]
    exact godotenvLoad_idem file E
  have hsame : NewEnvProcess file os1 = NewEnvProcess file E := by
    simp only [NewEnvProcess, hidem, hos]
  have hfst : (NewEnvProcess file E).1 = NewEnv os1 := by
    simp only [NewEnvProcess, hos]
  refine ⟨hsame, ?_⟩
  rw [hsame, hfst]
  rcases NewEnv_outcome os1 with ⟨K, v, kind, hK, hv, hbad, hN⟩ | ⟨hdb, hall, hN⟩ |
    ⟨cfg, hdb, hall, hN, hD⟩
  · exact Or.inl ⟨K, v, kind, hK, hv, hbad, hN, hN⟩
  · exact Or.inr (Or.inl ⟨hdb, hall, hN, hN⟩)
  · exact Or.inr (Or.inr ⟨cfg, hdb, hall, hN, hN, hD⟩)

/-- C7, at the process environment with `DB_URI="a"` and a dotenv file that
sets `PORT=":2"` and `PAGE="7"`: the second run, on the environment the first
run leaves behind, gives the same outcome, a record with those values. -/
theorem C7_deterministic_witness :
    NewEnvProcess (some (envOfList [("PORT", ":2"), ("PAGE", "7")]))
        (NewEnvProcess (some (envOfList [("PORT", ":2"), ("PAGE", "7")]))
          (envOfList [("DB_URI", "a")])).2
      = NewEnvProcess (some (envOfList [("PORT", ":2"), ("PAGE", "7")]))
          (envOfList [("DB_URI", "a")]) ∧
    (NewEnvProcess (some (envOfList [("PORT", ":2"), ("PAGE", "7")]))
        (envOfList [("DB_URI", "a")])).1
      = (some { defaultsWith "a" with Port := ":2", Page := 7 }, none) :=
  ⟨(C7_deterministic (some (envOfList [("PORT", ":2"), ("PAGE", "7")]))
      (envOfList [("DB_URI", "a")]) _ rfl).1,
   by decide⟩


/-- C8 as stated does not hold for every dotenv content: a value of the file
that holds a NUL byte is rejected by `os.Setenv`, `godotenv.Load` drops that
error, and the key, although set in the file and not in the process, is read
from its default.  With `DB_URI="a"` in the process and `APP_ENV="pro\x00d"`
in the file, the run succeeds with `AppEnv = "development"`. -/
theorem C8_file_value_with_nul_is_dropped :
    envOfList [("DB_URI", "a")] "APP_ENV" = none ∧
    envOfList [("APP_ENV", "pro\x00d")] "APP_ENV" = some "pro\x00d" ∧
    (NewEnvProcess (some (envOfList [("APP_ENV", "pro\x00d")]))
        (envOfList [("DB_URI", "a")])).1 = (some (defaultsWith "a"), none) ∧
    (defaultsWith "a").AppEnv = "development" ∧
    ¬ (∀ (F E : Environ) (cfg : Env) (v : String),
        (NewEnvProcess (some F) E).1 = (some cfg, none) →
        E "APP_ENV" = none → F "APP_ENV" = some v → cfg.AppEnv = v) := by
  have hrun : (NewEnvProcess (some (envOfList [("APP_ENV", "pro\x00d")]))
      (envOfList [("DB_URI", "a")])).1 = (some (defaultsWith "a"), none) := by decide
  refine ⟨by decide, by decide, hrun, by decide, fun h => ?_⟩
  have := h _ _ _ "pro\x00d" hrun (by decide) (by decide)
  exact absurd this (by decide)

/-- C8, amended: the dotenv overlay.  A run of `NewEnv()` on process
environment `E` with dotenv content `file` (`none`: no file, or a file that
cannot be parsed) never changes a variable that is set in `E`; without a
usable file it returns what `E` alone gives and leaves `E` unchanged; it
succeeds exactly when `DB_URI` has a non-empty value in `E`, or is not set in
`E` and has a non-empty value without NUL byte in the file, and every
integer-typed key's value in `E`, or else its NUL-free value in the file, is
an integer; and in a record it returns, every field is read from `E` when
its key is set there, from the file when the key is not set in `E` and the
file gives it a value without NUL byte, and is the declared default
otherwise. -/
theorem C8_dotenv_overlay (file : Option Environ) (E : Environ) :
    (∀ k v, E k = some v → (NewEnvProcess file E).2 k = some v) ∧
    (file = none → NewEnvProcess file E = (NewEnv E, E)) ∧
    ((∃ cfg, (NewEnvProcess file E).1 = (some cfg, none)) ↔
      (((∃ v, E "DB_URI" = some v ∧ v ≠ "") ∨
          (E "DB_URI" = none ∧
            ∃ F v, file = some F ∧ F "DB_URI" = some v ∧ hasNul v = false ∧ v ≠ "")) ∧
        ∀ k ∈ intKeys,
          (∀ v, E k = some v → ∃ z, IsGoInt v z) ∧
          (∀ F v, file = some F → E k = none → F k = some v → hasNul v = false →
            ∃ z, IsGoInt v z))) ∧
    (∀ cfg, (NewEnvProcess file E).1 = (some cfg, none) → ReadFrom file E cfg) := by
  have hkeys : ∀ k ∈ intKeys, keyOk k = true := by decide
  have hdbk : keyOk "DB_URI" = true := by decide
  refine ⟨fun k v hk => godotenvLoad_of_set file E k v hk, ?_, ?_, ?_⟩
  · intro hf
    subst hf
    rfl
  · show (∃ cfg, NewEnv (godotenvLoad file E) = (some cfg, none)) ↔ _
    constructor
    · rintro ⟨cfg, hc⟩
      obtain ⟨hall, hdb, _⟩ := (NewEnv_success_iff _ cfg).mp hc
      obtain ⟨v, hv, hne⟩ := (getEnv_ne_empty_iff _ "DB_URI").mp hdb
      refine ⟨?_, fun k hk => ⟨fun v hv => ?_, fun F v hf hE hF hn => ?_⟩⟩
      · rcases (godotenvLoad_eq_some_iff file E "DB_URI" v hdbk).mp hv with h | ⟨hE, F, hf, hF, hn⟩
        · exact Or.inl ⟨v, h, hne⟩
        · exact Or.inr ⟨hE, F, v, hf, hF, hn, hne⟩
      · exact (intErr_none_iff_isGoInt _ k).mp (hall k hk) v
          ((godotenvLoad_eq_some_iff file E k v (hkeys k hk)).mpr (Or.inl hv))
      · exact (intErr_none_iff_isGoInt _ k).mp (hall k hk) v
          ((godotenvLoad_eq_some_iff file E k v (hkeys k hk)).mpr (Or.inr ⟨hE, F, hf, hF, hn⟩))
    · rintro ⟨hdb, hints⟩
      refine ⟨fields (godotenvLoad file E), (NewEnv_success_iff _ _).mpr ⟨fun k hk => ?_, ?_, rfl⟩⟩
      · refine (intErr_none_iff_isGoInt _ k).mpr (fun v hv => ?_)
        rcases (godotenvLoad_eq_some_iff file E k v (hkeys k hk)).mp hv with h | ⟨hE, F, hf, hF, hn⟩
        · exact (hints k hk).1 v h
        · exact (hints k hk).2 F v hf hE hF hn
      · refine (getEnv_ne_empty_iff _ "DB_URI").mpr ?_
        rcases hdb with ⟨v, hv, hne⟩ | ⟨hE, F, v, hf, hF, hn, hne⟩
        · exact ⟨v, (godotenvLoad_eq_some_iff file E "DB_URI" v hdbk).mpr (Or.inl hv), hne⟩
        · exact ⟨v, (godotenvLoad_eq_some_iff file E "DB_URI" v hdbk).mpr
            (Or.inr ⟨hE, F, hf, hF, hn⟩), hne⟩
  · intro cfg hc
    have hc2 : NewEnv (godotenvLoad file E) = (some cfg, none) := hc
    obtain ⟨hall, _, rfl⟩ := (NewEnv_success_iff _ cfg).mp hc2
    exact readFrom_of_determined file E _ (fields_determined _ hall)

/-- C8 amended, at a process environment that sets `DB_URI` and `PORT` and a
dotenv file that sets `PORT`, `APP_ENV` and `DB_URI`: `PORT` and `DB_URI` come
from the process, `APP_ENV` from the file, the rest from the defaults. -/
theorem C8_dotenv_overlay_witness :
    (NewEnvProcess
        (some (envOfList [("PORT", ":2"), ("APP_ENV", "production"), ("DB_URI", "b")]))
        (envOfList [("DB_URI", "a"), ("PORT", ":1")])).1
      = (some { defaultsWith "a" with Port := ":1", AppEnv := "production" }, none) ∧
    ({ defaultsWith "a" with Port := ":1", AppEnv := "production" } : Env).Port = ":1" ∧
    ({ defaultsWith "a" with Port := ":1", AppEnv := "production" } : Env).AppEnv
      = "production" :=
  have hr := (C8_dotenv_overlay
      (some (envOfList [("PORT", ":2"), ("APP_ENV", "production"), ("DB_URI", "b")]))
      (envOfList [("DB_URI", "a"), ("PORT", ":1")])).2.2.2
      { defaultsWith "a" with Port := ":1", AppEnv := "production" } (by decide)
  ⟨by decide, hr.1.1 ":1" (by decide),
   hr.2.1.2.1 (envOfList [("PORT", ":2"), ("APP_ENV", "production"), ("DB_URI", "b")])
     "production" rfl (by decide) (by decide) (by decide)⟩

/-- C9: for a variable that is set to `v`, `getEnvAsInt` returns the integer
`z` and no error exactly when `v` is an optional single leading `+` or `-`
followed by one or more ASCII decimal digits whose value `z` lies in the
signed 64-bit range (`IsGoInt v z`); for every other `v` it returns the value
0, not the fallback, and an error.  The empty string, " 5", "5 ", "1_000",
"0x10", "1.5" and "9223372036854775808" are errors, and `PAGE=""` makes
`NewEnv` fail. -/
theorem C9_valid_integer (os : Environ) (key : String) (fallback : Int) (v : String)
    (hv : os key = some v) :
    (∀ z, IsGoInt v z → getEnvAsInt os key fallback = (z, none)) ∧
    ((¬ ∃ z, IsGoInt v z) →
      ∃ kind, getEnvAsInt os key fallback = (0, some (GoError.numError ⟨"Atoi", v, kind⟩))) ∧
    ((¬ ∃ z, IsGoInt "" z) ∧
      getEnvAsInt (envOfList [("PAGE", "")]) "PAGE" 1 =
        (0, some (GoError.numError ⟨"Atoi", "", NumErrKind.ErrSyntax⟩))) ∧
    ((¬ ∃ z, IsGoInt " 5" z) ∧
      getEnvAsInt (envOfList [("PAGE", " 5")]) "PAGE" 1 =
        (0, some (GoError.numError ⟨"Atoi", " 5", NumErrKind.ErrSyntax⟩))) ∧
    ((¬ ∃ z, IsGoInt "5 " z) ∧
      getEnvAsInt (envOfList [("PAGE", "5 ")]) "PAGE" 1 =
        (0, some (GoError.numError ⟨"Atoi", "5 ", NumErrKind.ErrSyntax⟩))) ∧
    ((¬ ∃ z, IsGoInt "1_000" z) ∧
      getEnvAsInt (envOfList [("PAGE", "1_000")]) "PAGE" 1 =
        (0, some (GoError.numError ⟨"Atoi", "1_000", NumErrKind.ErrSyntax⟩))) ∧
    ((¬ ∃ z, IsGoInt "0x10" z) ∧
      getEnvAsInt (envOfList [("PAGE", "0x10")]) "PAGE" 1 =
        (0, some (GoError.numError ⟨"Atoi", "0x10", NumErrKind.ErrSyntax⟩))) ∧
    ((¬ ∃ z, IsGoInt "1.5" z) ∧
      getEnvAsInt (envOfList [("PAGE", "1.5")]) "PAGE" 1 =
        (0, some (GoError.numError ⟨"Atoi", "1.5", NumErrKind.ErrSyntax⟩))) ∧
    ((¬ ∃ z, IsGoInt "9223372036854775808" z) ∧
      getEnvAsInt (envOfList [("PAGE", "9223372036854775808")]) "PAGE" 1 =
        (0, some (GoError.numError ⟨"Atoi", "9223372036854775808", NumErrKind.ErrRange⟩))) ∧
    NewEnv (envOfList [("DB_URI", "mongodb://x"), ("PAGE", "")])
      = (none, some (GoError.numError ⟨"Atoi", "", NumErrKind.ErrSyntax⟩)) := by
  have hs := Atoi_spec v
  refine ⟨fun z hz => ?_, fun hn => ?_, ⟨not_isGoInt_of_none "" (by decide), by decide⟩, ⟨not_isGoInt_of_none " 5" (by decide), by decide⟩, ⟨not_isGoInt_of_none "5 " (by decide), by decide⟩, ⟨not_isGoInt_of_none "1_000" (by decide), by decide⟩, ⟨not_isGoInt_of_none "0x10" (by decide), by decide⟩, ⟨not_isGoInt_of_none "1.5" (by decide), by decide⟩, ⟨not_isGoInt_of_none "9223372036854775808" (by decide), by decide⟩, by decide⟩
  · unfold getEnvAsInt
    rw [hv]
    simp only
    rw [hs.1 z ((goIntValue_iff_grammar v z).mpr hz)]
  · obtain ⟨r, kind, hA⟩ := hs.2 (goIntValue_none_of_not_isGoInt v hn)
    refine ⟨kind, ?_⟩
    unfold getEnvAsInt
    rw [hv]
    simp only
    rw [hA]

/-- C9, at `PAGE="-0012"` (a sign, then digits with leading zeros; value -12)
with fallback 1. -/
theorem C9_valid_integer_witness :
    IsGoInt "-0012" (-12) ∧
    getEnvAsInt (envOfList [("PAGE", "-0012")]) "PAGE" 1 = (-12, none) :=
  have hg : IsGoInt "-0012" (-12) :=
    ⟨['-'], ['0', '0', '1', '2'], rfl, Or.inr (Or.inr rfl), by decide, by decide, by decide,
      by decide, by decide⟩
  ⟨hg, (C9_valid_integer (envOfList [("PAGE", "-0012")]) "PAGE" 1 "-0012" (by decide)).1 (-12)
    hg⟩

/-- C10: two environments that agree, in presence and value, on the 39 keys
`NewEnv` reads give the same outcome: variables outside that set have no
influence on the result. -/
theorem C10_noninterference (os1 os2 : Environ) (h : ∀ k ∈ readKeys, os1 k = os2 k) :
    NewEnv os1 = NewEnv os2 ∧ readKeys.length = 39 ∧ readKeys.Nodup := by
  refine ⟨?_, by decide, by decide⟩
  have hk : ∀ k ∈ readKeys, os2 k = os1 k := fun k hk => (h k hk).symm
  simp only [NewEnv, getEnv, getEnvAsInt,
    hk "PORT" (by decide),
    hk "APP_ENV" (by decide),
    hk "DB_URI" (by decide),
    hk "DB_NAME" (by decide),
    hk "REFRESH_TOKEN_SECRET" (by decide),
    hk "ACCESS_TOKEN_SECRET" (by decide),
    hk "REFRESH_TOKEN_EXPIRE_HOURS" (by decide),
    hk "ACCESS_TOKEN_EXPIRE_MINUTES" (by decide),
    hk "CONTEXT_TIMEOUT_SECONDS" (by decide),
    hk "PAGE" (by decide),
    hk "PAGE_SIZE" (by decide),
    hk "RECENCY" (by decide),
    hk "USER_COLLECTION" (by decide),
    hk "REFRESH_TOKEN_COLLECTION" (by decide),
    hk "PASSWORD_RESET_TOKEN_COLLECTION" (by decide),
    hk "PASSWORD_RESET_TOKEN_EXPIRE_MINUTES" (by decide),
    hk "SMTP_HOST" (by decide),
    hk "SMTP_PORT" (by decide),
    hk "SMTP_FROM" (by decide),
    hk "SMTP_USERNAME" (by decide),
    hk "SMTP_PASSWORD" (by decide),
    hk "RESET_URL" (by decide),
    hk "GEMINI_API_KEY" (by decide),
    hk "GEMINI_MODEL_NAME" (by decide),
    hk "IMAGEKIT_PRIVATE_KEY" (by decide),
    hk "IMAGEKIT_PUBLIC_KEY" (by decide),
    hk "IMAGEKIT_URL_ENDPOINT" (by decide),
    hk "MY_SUPER_SECRET_SALT" (by decide),
    hk "OTP_COLLECTION" (by decide),
    hk "OTP_EXPIRE_MINUTES" (by decide),
    hk "OTP_MAXIMUM_ATTEMPTS" (by decide),
    hk "REDIS_HOST" (by decide),
    hk "REDIS_PORT" (by decide),
    hk "REDIS_PASSWORD" (by decide),
    hk "REDIS_DB" (by decide),
    hk "CACHE_EXPIRATION_SECONDS" (by decide),
    hk "GOOGLE_CLIENT_ID" (by decide),
    hk "GOOGLE_CLIENT_SECRET" (by decide),
    hk "GOOGLE_REDIRECT_URL" (by decide)]

/-- C10, at the environment with `DB_URI` set and the same environment with
the unrelated variables `HOME` and `PORT_2` added. -/
theorem C10_noninterference_witness :
    NewEnv (envOfList [("DB_URI", "mongodb://x")])
      = NewEnv (envOfList [("HOME", "/root"), ("PORT_2", "x"), ("DB_URI", "mongodb://x")]) :=
  (C10_noninterference (envOfList [("DB_URI", "mongodb://x")])
    (envOfList [("HOME", "/root"), ("PORT_2", "x"), ("DB_URI", "mongodb://x")])
    (by decide)).1

end Bootstrap
